import Mathlib

/-!
Verification of the intelligence core of `android-ad-scanner`.

The Python modules `intelligence/risk_engine.py`, `intelligence/anomaly.py`,
`intelligence/pipeline.py`, `intelligence/campaigns.py`, `intelligence/intel_db.py`
and `intelligence/ml_model.py` are shallowly embedded below.  Python `float`
arithmetic is modelled over `ℚ` (and over `ℝ` where `math.sqrt` appears): every
constant in scope (integer weights, `0.65`, `0.35`, two-decimal rounding) is
exactly representable, and `round(x, n)` is modelled as exact decimal rounding;
Python rounds binary doubles half-to-even, which agrees with the model at every
value appearing in this development (none of which is a decimal tie).
SHA-256 / SHA-1 digests are modelled as an arbitrary function parameter: every
property proved about fingerprints depends only on the hashed byte string, never
on the concrete digest.
-/

/-- `round(x, 2)` over `ℚ` (half-up; agrees with Python away from ties). -/
def rnd2 (q : ℚ) : ℚ := (⌊q * 100 + 1/2⌋ : ℚ) / 100

/-- `round(x, 4)` over `ℚ`. -/
def rnd4 (q : ℚ) : ℚ := (⌊q * 10000 + 1/2⌋ : ℚ) / 10000

/-- `intelligence/models.py` — `FeatureVector`.  Python declares the counts and
the capability flags as `int` (the flags are written `0`/`1` by the extractor
but any `int` is accepted by the scorer, where they are used as truth values),
so they are modelled as `ℤ`; `apk_size_kb` is a `float`, modelled as `ℚ`. -/
structure FeatureVector where
  package_name : String
  installer : String
  install_path : String
  permissions_total : ℤ
  suspicious_permissions_count : ℤ
  dangerous_permissions_count : ℤ
  ad_sdk_hits : ℤ
  tracker_hits : ℤ
  suspicious_keyword_hits : ℤ
  boot_receiver_detected : ℤ
  accessibility_binding_detected : ℤ
  overlay_permission_detected : ℤ
  install_packages_permission_detected : ℤ
  write_settings_detected : ℤ
  apk_hash_present : ℤ := 0
  apk_size_kb : ℚ := 0
  deriving DecidableEq, Repr

/-- `intelligence/risk_engine.py` — `RiskResult`. -/
structure RiskResult where
  score : ℚ
  level : String
  reasons : List String
  deriving DecidableEq, Repr

/-- `"sub" in s` for Python strings (byte-for-byte substring test). -/
def strContains (s sub : String) : Bool := decide (sub.data <:+: s.data)

/-- `s.lower()` (the packages under scan only produce ASCII text, where
`str.lower` coincides with per-character `Char.toLower`). -/
def pyLower (s : String) : String := String.mk (s.data.map Char.toLower)

/-- `s.strip()`: drop leading and trailing whitespace (Python additionally
strips rare whitespace such as `\f`/`\v` and Unicode spaces, which never
appear in this text). -/
def pyStrip (s : String) : String :=
  String.mk (((s.data.dropWhile Char.isWhitespace).reverse.dropWhile
    Char.isWhitespace).reverse)

/-- `RuleBasedRiskEngine._score_to_level` (risk_engine.py lines 88-96). -/
def score_to_level (score : ℚ) : String :=
  if 75 ≤ score then "CRITICAL"
  else if 55 ≤ score then "HIGH"
  else if 30 ≤ score then "MEDIUM"
  else "LOW"

/-- The mutable `(score, reasons)` pair threaded through `evaluate`. -/
abbrev RiskSt := ℚ × List String

/-- risk_engine.py lines 24-29. -/
def riskBlk1 (f : FeatureVector) (st : RiskSt) : RiskSt :=
  if 3 ≤ f.suspicious_permissions_count then
    (st.1 + 28, st.2 ++ ["Multiples permisos de alto riesgo detectados"])
  else if 0 < f.suspicious_permissions_count then
    (st.1 + 14, st.2 ++ ["Permisos de alto riesgo presentes"])
  else st

/-- risk_engine.py lines 31-33. -/
def riskBlk2 (f : FeatureVector) (st : RiskSt) : RiskSt :=
  if f.overlay_permission_detected ≠ 0 then
    (st.1 + 10, st.2 ++ ["Permiso de superposicion detectado (SYSTEM_ALERT_WINDOW)"])
  else st

/-- risk_engine.py lines 35-37. -/
def riskBlk3 (f : FeatureVector) (st : RiskSt) : RiskSt :=
  if f.accessibility_binding_detected ≠ 0 then
    (st.1 + 14, st.2 ++ ["Capacidad de binding de servicio de accesibilidad"])
  else st

/-- risk_engine.py lines 39-41. -/
def riskBlk4 (f : FeatureVector) (st : RiskSt) : RiskSt :=
  if f.install_packages_permission_detected ≠ 0 then
    (st.1 + 12, st.2 ++ ["Capacidad de instalar paquetes detectada"])
  else st

/-- risk_engine.py lines 43-45. -/
def riskBlk5 (f : FeatureVector) (st : RiskSt) : RiskSt :=
  if f.write_settings_detected ≠ 0 then
    (st.1 + 10, st.2 ++ ["Capacidad de modificar ajustes del sistema"])
  else st

/-- risk_engine.py lines 47-49. -/
def riskBlk6 (f : FeatureVector) (st : RiskSt) : RiskSt :=
  if f.boot_receiver_detected ≠ 0 then
    (st.1 + 8, st.2 ++ ["Persistencia potencial al arranque detectada"])
  else st

/-- risk_engine.py lines 51-56. -/
def riskBlk7 (f : FeatureVector) (st : RiskSt) : RiskSt :=
  if 4 ≤ f.ad_sdk_hits then
    (st.1 + 15, st.2 ++ ["Alta densidad de librerias SDK de anuncios/tracking"])
  else if 0 < f.ad_sdk_hits then
    (st.1 + 6, st.2 ++ ["Presencia de SDK de anuncios/tracking"])
  else st

/-- risk_engine.py lines 58-63. -/
def riskBlk8 (f : FeatureVector) (st : RiskSt) : RiskSt :=
  if 3 ≤ f.tracker_hits then
    (st.1 + 10, st.2 ++ ["Multiples indicadores de tracking en metadatos"])
  else if 0 < f.tracker_hits then
    (st.1 + 5, st.2 ++ ["Indicadores de tracking en metadatos"])
  else st

/-- risk_engine.py lines 65-67. -/
def riskBlk9 (f : FeatureVector) (st : RiskSt) : RiskSt :=
  if 2 ≤ f.suspicious_keyword_hits then
    (st.1 + 6, st.2 ++ ["Keywords sensibles detectadas en informacion de paquete"])
  else st

/-- risk_engine.py lines 69-74. -/
def riskBlk10 (f : FeatureVector) (st : RiskSt) : RiskSt :=
  if 8 ≤ f.dangerous_permissions_count then
    (st.1 + 12, st.2 ++ ["Superficie de permisos peligrosos muy alta"])
  else if 4 ≤ f.dangerous_permissions_count then
    (st.1 + 6, st.2 ++ ["Superficie de permisos peligrosos elevada"])
  else st

/-- risk_engine.py lines 76-78 (`if ioc_matches:` — non-empty list is truthy). -/
def riskBlk11 (ioc_matches : List String) (st : RiskSt) : RiskSt :=
  if ioc_matches ≠ [] then
    (st.1 + min 32 (8 * (ioc_matches.length : ℚ)),
     st.2 ++ ["Coincidencias IOC activas: " ++ toString ioc_matches.length])
  else st

/-- risk_engine.py lines 80-82. -/
def riskBlk12 (f : FeatureVector) (st : RiskSt) : RiskSt :=
  if strContains (pyLower f.installer) "unknown" = true ∨ pyStrip f.installer = "" then
    (st.1 + 6, st.2 ++ ["Instalador desconocido o no confiable"])
  else st

/-- `RuleBasedRiskEngine.evaluate` (risk_engine.py lines 18-86).  The
`ioc_matches = ioc_matches or []` default is reflected by the caller passing
`[]` for Python `None`. -/
def RuleBasedRiskEngine.evaluate (f : FeatureVector) (ioc_matches : List String) : RiskResult :=
  let st : RiskSt :=
    riskBlk12 f (riskBlk11 ioc_matches (riskBlk10 f (riskBlk9 f (riskBlk8 f
      (riskBlk7 f (riskBlk6 f (riskBlk5 f (riskBlk4 f (riskBlk3 f
        (riskBlk2 f (riskBlk1 f (0, []))))))))))))
  let score := min 100 (rnd2 st.1)
  { score := score, level := score_to_level score, reasons := st.2 }

/-! ### Claim-side translation of the documented weight table (spec §4.2 / C1) -/

/-- The sum of exactly the triggered weights of the documented table, written
from the claim sentence: suspicious-permission count >= 3 adds 28 else > 0 adds
14; overlay flag adds 10; accessibility-binding flag adds 14; install-packages
flag adds 12; write-settings flag adds 10; boot-receiver flag adds 8; ad-SDK
hits >= 4 add 15 else > 0 add 6; tracker hits >= 3 add 10 else > 0 add 5;
keyword hits >= 2 add 6; dangerous-permission count >= 8 adds 12 else >= 4 adds
6; a non-empty IOC list adds min(32, 8 * count); an installer that is
empty/whitespace or contains "unknown" (the engine tests the lowercased
installer) adds 6. -/
def specRuleScoreSum (f : FeatureVector) (ioc_matches : List String) : ℚ :=
  (if 3 ≤ f.suspicious_permissions_count then 28
   else if 0 < f.suspicious_permissions_count then 14 else 0)
  + (if f.overlay_permission_detected ≠ 0 then 10 else 0)
  + (if f.accessibility_binding_detected ≠ 0 then 14 else 0)
  + (if f.install_packages_permission_detected ≠ 0 then 12 else 0)
  + (if f.write_settings_detected ≠ 0 then 10 else 0)
  + (if f.boot_receiver_detected ≠ 0 then 8 else 0)
  + (if 4 ≤ f.ad_sdk_hits then 15 else if 0 < f.ad_sdk_hits then 6 else 0)
  + (if 3 ≤ f.tracker_hits then 10 else if 0 < f.tracker_hits then 5 else 0)
  + (if 2 ≤ f.suspicious_keyword_hits then 6 else 0)
  + (if 8 ≤ f.dangerous_permissions_count then 12
     else if 4 ≤ f.dangerous_permissions_count then 6 else 0)
  + (if ioc_matches ≠ [] then min 32 (8 * (ioc_matches.length : ℚ)) else 0)
  + (if strContains (pyLower f.installer) "unknown" = true ∨ pyStrip f.installer = "" then 6 else 0)

/-- Number of triggered conditions of the table (one reason is appended per
triggered condition; an if/elif pair counts as one condition). -/
def specTriggeredCount (f : FeatureVector) (ioc_matches : List String) : ℕ :=
  (if 3 ≤ f.suspicious_permissions_count then 1
   else if 0 < f.suspicious_permissions_count then 1 else 0)
  + (if f.overlay_permission_detected ≠ 0 then 1 else 0)
  + (if f.accessibility_binding_detected ≠ 0 then 1 else 0)
  + (if f.install_packages_permission_detected ≠ 0 then 1 else 0)
  + (if f.write_settings_detected ≠ 0 then 1 else 0)
  + (if f.boot_receiver_detected ≠ 0 then 1 else 0)
  + (if 4 ≤ f.ad_sdk_hits then 1 else if 0 < f.ad_sdk_hits then 1 else 0)
  + (if 3 ≤ f.tracker_hits then 1 else if 0 < f.tracker_hits then 1 else 0)
  + (if 2 ≤ f.suspicious_keyword_hits then 1 else 0)
  + (if 8 ≤ f.dangerous_permissions_count then 1
     else if 4 ≤ f.dangerous_permissions_count then 1 else 0)
  + (if ioc_matches ≠ [] then 1 else 0)
  + (if strContains (pyLower f.installer) "unknown" = true ∨ pyStrip f.installer = "" then 1 else 0)

/-! ### Score fusion in `IntelligentScanPipeline.scan_package` (pipeline.py lines 161-189) -/

/-- The anomaly-detector output as consumed by the fusion step (`anomaly.score`,
`anomaly.zmax` are Python floats by the time the pipeline reads them). -/
structure AnomalySignal where
  score : ℚ
  zmax : ℚ
  deriving DecidableEq, Repr

/-- pipeline.py lines 161-189: rule evaluation, optional ML blend, ATT&CK
reason, anomaly bump, and level recomputation.  `ml_prob` is
`SupervisedRiskModel.predict_proba` when a model is loaded (`None` otherwise);
`attack_count` is `len(attack_techniques)`; `fmt` abstracts Python float
formatting inside f-strings (the claims never depend on the digits produced).
Returns `(risk_score, risk_level, reasons)`. -/
def scan_fuse (f : FeatureVector) (ioc_matches : List String) (ml_prob : Option ℚ)
    (model_version : String) (attack_count : ℕ) (anom : Option AnomalySignal)
    (fmt : ℚ → String) : ℚ × String × List String :=
  let risk := RuleBasedRiskEngine.evaluate f ioc_matches
  -- lines 165-170: ml_score = round(ml_prob * 100.0, 2)
  let ml_score : Option ℚ := ml_prob.map fun p => rnd2 (p * 100)
  -- lines 172-180: blended = (0.65 * risk.score) + (0.35 * ml_score)
  let base : ℚ × List String :=
    match ml_score with
    | some ms =>
        (rnd2 (min 100 (0.65 * risk.score + 0.35 * ms)),
         risk.reasons ++ ["Modelo ML (" ++ model_version ++ ") sugiere riesgo " ++ fmt ms])
    | none => (risk.score, risk.reasons)
  -- lines 182-183
  let withAtk : ℚ × List String :=
    if attack_count ≠ 0 then
      (base.1, base.2 ++ ["Mapeo ATT&CK Mobile inferido: " ++ toString attack_count ++ " tecnicas"])
    else base
  -- lines 185-187
  let withAnom : ℚ × List String :=
    match anom with
    | some a =>
        if 70 ≤ a.score then
          (min 100 (rnd2 (withAtk.1 + 12)),
           withAtk.2 ++
             ["Anomalia estadistica alta (score=" ++ fmt a.score ++ ", zmax=" ++ fmt a.zmax ++ ")"])
        else withAtk
    | none => withAtk
  -- line 189
  (withAnom.1, score_to_level withAnom.1, withAnom.2)

/-! ### `intelligence/anomaly.py` -/

/-- anomaly.py lines 8-15. -/
def NUMERIC_FIELDS : List String :=
  ["permissions_total", "suspicious_permissions_count", "dangerous_permissions_count",
   "ad_sdk_hits", "tracker_hits", "suspicious_keyword_hits"]

/-- anomaly.py lines 18-22 (`means`/`stds` are Python dicts, modelled as
association lists read through `dict.get(name, 0.0)`). -/
structure BaselineStats where
  means : List (String × ℚ)
  stds : List (String × ℚ)
  sample_size : ℤ
  deriving DecidableEq, Repr

/-- anomaly.py lines 25-28.  `score` lives in `ℝ` because the L2 norm goes
through `math.sqrt`. -/
structure AnomalyResult where
  score : ℝ
  zmax : ℚ

/-- `float(getattr(features, field_name))` for the six tracked fields. -/
def featGet (f : FeatureVector) : String → ℚ
  | "permissions_total" => (f.permissions_total : ℚ)
  | "suspicious_permissions_count" => (f.suspicious_permissions_count : ℚ)
  | "dangerous_permissions_count" => (f.dangerous_permissions_count : ℚ)
  | "ad_sdk_hits" => (f.ad_sdk_hits : ℚ)
  | "tracker_hits" => (f.tracker_hits : ℚ)
  | "suspicious_keyword_hits" => (f.suspicious_keyword_hits : ℚ)
  | _ => 0

/-- `dict.get(key, default)`. -/
def dictGet (d : List (String × ℚ)) (key : String) (default : ℚ) : ℚ :=
  (d.lookup key).getD default

/-- The z-value of one field (anomaly.py lines 41-48). -/
def zOf (f : FeatureVector) (b : BaselineStats) (field_name : String) : ℚ :=
  let mean := dictGet b.means field_name 0
  let std := dictGet b.stds field_name 0
  let value := featGet f field_name
  if std ≤ 1/1000000000 then
    if |value - mean| < 1/1000000000 then 0 else 3
  else |(value - mean) / std|

/-- The `for field_name in NUMERIC_FIELDS` accumulation of `z_values`
(anomaly.py lines 38-49). -/
def zLoop (f : FeatureVector) (b : BaselineStats) : List String → List ℚ
  | [] => []
  | n :: rest => zOf f b n :: zLoop f b rest

/-- Python `max(l)` for a non-empty list (callers guard emptiness). -/
def maxOfList (l : List ℚ) : ℚ :=
  match l with
  | [] => 0
  | x :: xs => xs.foldl max x

/-- `round(x, 2)` over `ℝ` (anomaly scores pass through `math.sqrt`). -/
noncomputable def rnd2R (x : ℝ) : ℝ := (⌊x * 100 + 1/2⌋ : ℝ) / 100

/-- `ZScoreAnomalyDetector.evaluate` (anomaly.py lines 34-54). -/
noncomputable def ZScoreAnomalyDetector.evaluate (f : FeatureVector)
    (baseline : Option BaselineStats) : Option AnomalyResult :=
  match baseline with
  | none => none
  | some b =>
      if b.sample_size < 8 then none
      else
        let z_values := zLoop f b NUMERIC_FIELDS
        let zmax := if z_values ≠ [] then maxOfList z_values else 0
        let l2 : ℝ := Real.sqrt (((z_values.map fun z => z * z).sum : ℚ))
        let score : ℝ := min 100 (rnd2R ((zmax : ℝ) * 18 + l2 * 4))
        some { score := score, zmax := rnd4 zmax }

/-- Claim-side anomaly formula (spec §4.3 / C4): z per tracked feature is
|value − mean| / std with the std ≈ 0 sentinel, the score is
min(100, round(zmax·18 + L2(z)·4, 2)) and zmax is reported alongside (rounded
to 4 decimals, as stored). -/
noncomputable def specAnomaly (f : FeatureVector) (b : BaselineStats) : AnomalyResult :=
  let zs : List ℚ := NUMERIC_FIELDS.map fun n => zOf f b n
  let zmax : ℚ := maxOfList zs
  let l2 : ℝ := Real.sqrt (((zs.map fun z => z * z).sum : ℚ))
  { score := min 100 (rnd2R ((zmax : ℝ) * 18 + l2 * 4)), zmax := rnd4 zmax }

/-! ### `pipeline.py` feature extraction (lines 28-70, 410-451, 490-510) -/

/-- pipeline.py lines 28-39. -/
def AD_TECH_MARKERS : List String :=
  ["admob", "applovin", "unityads", "appsflyer", "facebook ads", "ironsource",
   "chartboost", "mintegral", "mbridge", "tiktokads"]

/-- pipeline.py lines 41-48. -/
def TRACKER_MARKERS : List String :=
  ["analytics", "track", "telemetry", "fingerprint", "referrer", "attribution"]

/-- pipeline.py lines 50-58. -/
def SUSPICIOUS_KEYWORDS : List String :=
  ["accessibility", "overlay", "autostart", "silent", "background install",
   "receiver", "unknown source"]

/-- pipeline.py lines 60-67. -/
def HIGH_RISK_PERMISSIONS : List String :=
  ["android.permission.SYSTEM_ALERT_WINDOW", "android.permission.BIND_ACCESSIBILITY_SERVICE",
   "android.permission.REQUEST_INSTALL_PACKAGES", "android.permission.WRITE_SETTINGS",
   "android.permission.PACKAGE_USAGE_STATS", "android.permission.READ_LOGS"]

/-- The raw snapshot assembled by `_collect_snapshot` / `_extract_apk_artifact`
(pipeline.py lines 341-396): three raw text fields plus artifact metadata. -/
structure Snapshot where
  dumpsys_package : String
  pm_path : String
  pm_installer : String
  apk_remote_path : String := ""
  apk_sha256 : String := ""
  apk_size_bytes : ℤ := 0
  apk_pull_error : String := ""
  deriving DecidableEq, Repr

/-- A `[A-Z0-9_]` character (the permission-suffix class of
`DANGEROUS_PERMISSION_PATTERN`, pipeline.py line 69). -/
def isPermChar (c : Char) : Bool :=
  ('A' ≤ c && c ≤ 'Z') || ('0' ≤ c && c ≤ '9') || c = '_'

/-- Try `re` pattern `android\.permission\.[A-Z0-9_]+` at the head of `l`;
on success return the matched text and the remaining characters.  The greedy
`[A-Z0-9_]+` is the maximal run (no character after it in the pattern, so no
backtracking is observable). -/
def matchPermAt (l : List Char) : Option (String × List Char) :=
  let lit := "android.permission.".data
  if lit.isPrefixOf l then
    let rest := l.drop lit.length
    let run := rest.takeWhile isPermChar
    if run = [] then none
    else some (String.mk (lit ++ run), rest.drop run.length)
  else none

/-- `re.findall` scanning: leftmost match, continue after the match end,
otherwise advance one character.  `fuel` bounds the recursion (callers pass
the text length; each step consumes at least one character). -/
def findPermsAux : ℕ → List Char → List String
  | 0, _ => []
  | _, [] => []
  | fuel + 1, c :: rest =>
      match matchPermAt (c :: rest) with
      | some (s, rest') => s :: findPermsAux fuel rest'
      | none => findPermsAux fuel rest

/-- `DANGEROUS_PERMISSION_PATTERN.findall(text)` (pipeline.py line 69). -/
def findPerms (text : String) : List String :=
  findPermsAux text.data.length text.data

/-- `re.search(r"installer=([^\s]+)", text)`: leftmost `installer=` followed by
at least one non-whitespace character; returns capture group 1. -/
def searchInstallerAux : ℕ → List Char → Option String
  | 0, _ => none
  | _, [] => none
  | fuel + 1, c :: rest =>
      let l := c :: rest
      if "installer=".data.isPrefixOf l then
        let after := l.drop "installer=".data.length
        let run := after.takeWhile fun ch => ¬ ch.isWhitespace
        if run = [] then searchInstallerAux fuel rest else some (String.mk run)
      else searchInstallerAux fuel rest

def searchInstaller (text : String) : Option String :=
  searchInstallerAux text.data.length text.data

/-- `re.search(r"package:(.+)", text)`: leftmost `package:` followed by at least
one non-newline character; returns capture group 1 (the rest of the line). -/
def searchPackagePathAux : ℕ → List Char → Option String
  | 0, _ => none
  | _, [] => none
  | fuel + 1, c :: rest =>
      let l := c :: rest
      if "package:".data.isPrefixOf l then
        let after := l.drop "package:".data.length
        let run := after.takeWhile fun ch => ch ≠ '\n'
        if run = [] then searchPackagePathAux fuel rest else some (String.mk run)
      else searchPackagePathAux fuel rest

def searchPackagePath (text : String) : Option String :=
  searchPackagePathAux text.data.length text.data

/-- `sum(1 for marker in markers if marker in lowered)` (pipeline.py 427-429). -/
def countMarkers (markers : List String) (lowered : String) : ℕ :=
  (markers.filter fun m => strContains lowered m).length

/-- `IntelligentScanPipeline._build_features` (pipeline.py lines 410-451). -/
def build_features (snapshot : Snapshot) (package_name : String) : FeatureVector :=
  let dumpsys := snapshot.dumpsys_package
  -- line 415: permissions = set(DANGEROUS_PERMISSION_PATTERN.findall(dumpsys))
  let permissions := (findPerms dumpsys).dedup
  -- line 416
  let suspicious_permissions := permissions.filter fun p => HIGH_RISK_PERMISSIONS.contains p
  -- lines 418-421
  let installer := ((searchInstaller snapshot.pm_installer).map pyStrip).getD "unknown"
  -- lines 423-424
  let install_path := ((searchPackagePath snapshot.pm_path).map pyStrip).getD "unknown"
  -- lines 426-429
  let lowered := pyLower dumpsys
  let ad_sdk_hits := countMarkers AD_TECH_MARKERS lowered
  let tracker_hits := countMarkers TRACKER_MARKERS lowered
  let suspicious_keyword_hits := countMarkers SUSPICIOUS_KEYWORDS lowered
  -- lines 431-432
  let apk_sha256 := pyStrip snapshot.apk_sha256
  let apk_size_bytes := snapshot.apk_size_bytes
  { package_name := package_name
    installer := installer
    install_path := install_path
    permissions_total := (permissions.length : ℤ)
    suspicious_permissions_count := (suspicious_permissions.length : ℤ)
    dangerous_permissions_count := (permissions.length : ℤ)
    ad_sdk_hits := (ad_sdk_hits : ℤ)
    tracker_hits := (tracker_hits : ℤ)
    suspicious_keyword_hits := (suspicious_keyword_hits : ℤ)
    boot_receiver_detected := if strContains lowered "receive_boot_completed" then 1 else 0
    accessibility_binding_detected := if strContains lowered "bind_accessibility_service" then 1 else 0
    overlay_permission_detected := if strContains lowered "system_alert_window" then 1 else 0
    install_packages_permission_detected := if strContains lowered "request_install_packages" then 1 else 0
    write_settings_detected := if strContains lowered "write_settings" then 1 else 0
    apk_hash_present := if apk_sha256 ≠ "" then 1 else 0
    apk_size_kb := if 0 < apk_size_bytes then rnd2 ((apk_size_bytes : ℚ) / 1024) else 0 }

/-- `str.splitlines()` for the line separators produced by `dumpsys` output
(`\n`, `\r\n`, `\r`; Python additionally splits on rare separators such as
`\v`, `\f`, ` ` that never occur in this text).  No trailing empty line
is produced. -/
def splitLinesAux : List Char → List Char → List String
  | [], acc => if acc = [] then [] else [String.mk acc.reverse]
  | '\r' :: '\n' :: rest, acc => String.mk acc.reverse :: splitLinesAux rest []
  | '\n' :: rest, acc => String.mk acc.reverse :: splitLinesAux rest []
  | '\r' :: rest, acc => String.mk acc.reverse :: splitLinesAux rest []
  | c :: rest, acc => splitLinesAux rest (c :: acc)

def splitLines (s : String) : List String := splitLinesAux s.data []

/-- `s` or `S` — IGNORECASE makes the literal `s` of the pattern match both. -/
def isSChar (c : Char) : Bool := c = 's' || c = 'S'

/-- Case-insensitive literal prefix match (`pat` given in lowercase); returns
the remaining characters on success. -/
def ciPrefix : List Char → List Char → Option (List Char)
  | [], l => some l
  | _ :: _, [] => none
  | p :: ps, c :: cs => if c.toLower = p then ciPrefix ps cs else none

/-- One attempt of `EXPORTED_TRUE_PATTERN` (pipeline.py line 70) at the head of
`l`.  The pattern source is the RAW string `exported\\s*=\\s*true` compiled with
`re.IGNORECASE`: `\\` is an escaped literal backslash, so the regex is
`exported`, a literal `\`, zero or more `s`, `=`, a literal `\`, zero or more
`s`, `true` — NOT optional whitespace around `=`.  The greedy `s*` runs are
maximal (the following pattern characters `=` and `t` are not `s`, so
backtracking cannot succeed at a shorter run). -/
def matchExportedAt (l : List Char) : Option (List Char) :=
  match ciPrefix "exported".data l with
  | none => none
  | some r1 =>
      match r1 with
      | '\\' :: r2 =>
          match r2.dropWhile isSChar with
          | '=' :: r4 =>
              match r4 with
              | '\\' :: r5 => ciPrefix "true".data (r5.dropWhile isSChar)
              | _ => none
          | _ => none
      | _ => none

/-- `len(EXPORTED_TRUE_PATTERN.findall(text))` — non-overlapping scan count. -/
def countExportedAux : ℕ → List Char → ℕ
  | 0, _ => 0
  | _, [] => 0
  | fuel + 1, c :: rest =>
      match matchExportedAt (c :: rest) with
      | some rest' => 1 + countExportedAux fuel rest'
      | none => countExportedAux fuel rest

def countExportedTrue (text : String) : ℕ :=
  countExportedAux text.data.length text.data

/-- The `dict[str, int]` returned by `_extract_component_summary`. -/
structure ComponentSummary where
  receiver_hits : ℤ
  service_hits : ℤ
  activity_hits : ℤ
  provider_hits : ℤ
  exported_true_hits : ℤ
  has_boot_receiver : ℤ
  has_notification_listener : ℤ
  has_accessibility_binding : ℤ
  deriving DecidableEq, Repr

/-- `IntelligentScanPipeline._extract_component_summary` (pipeline.py 490-510). -/
def extract_component_summary (snapshot : Snapshot) : ComponentSummary :=
  let dumpsys := snapshot.dumpsys_package
  let lowered := pyLower dumpsys
  let lines := splitLines dumpsys
  { receiver_hits := ((lines.filter fun line => strContains (pyLower line) "receiver").length : ℤ)
    service_hits := ((lines.filter fun line => strContains (pyLower line) "service").length : ℤ)
    activity_hits := ((lines.filter fun line => strContains (pyLower line) "activity").length : ℤ)
    provider_hits := ((lines.filter fun line => strContains (pyLower line) "provider").length : ℤ)
    exported_true_hits := (countExportedTrue dumpsys : ℤ)
    has_boot_receiver := if strContains lowered "receive_boot_completed" then 1 else 0
    has_notification_listener := if strContains lowered "bind_notification_listener_service" then 1 else 0
    has_accessibility_binding := if strContains lowered "bind_accessibility_service" then 1 else 0 }

/-! ### Canonical JSON + component fingerprint (pipeline.py lines 512-529) -/

/-- The JSON values appearing in the fingerprint payload (strings, ints,
string arrays, objects). -/
inductive Jval where
  | str (s : String)
  | num (n : ℤ)
  | arr (l : List Jval)
  | obj (fields : List (String × Jval))

/-- Two hex digits (for `\u00XX` escapes of control characters). -/
def hex2 (n : ℕ) : String :=
  let digit : ℕ → Char := fun d => if d < 10 then Char.ofNat (48 + d) else Char.ofNat (87 + d)
  String.mk [digit (n / 16 % 16), digit (n % 16)]

/-- `json.dumps` escaping of one character inside a string literal
(`ensure_ascii=False`: non-ASCII characters pass through unescaped). -/
def jsonEscChar (c : Char) : String :=
  if c = '"' then "\\\""
  else if c = '\\' then "\\\\"
  else if c = '\n' then "\\n"
  else if c = '\t' then "\\t"
  else if c = '\r' then "\\r"
  else if c = Char.ofNat 8 then "\\b"
  else if c = Char.ofNat 12 then "\\f"
  else if c.toNat < 32 then "\\u00" ++ hex2 c.toNat
  else String.singleton c

def jsonStr (s : String) : String :=
  "\"" ++ String.join (s.data.map jsonEscChar) ++ "\""

/-- `", ".join` / `": "` — the default separators of `json.dumps`. -/
def joinSep (sep : String) : List String → String
  | [] => ""
  | [x] => x
  | x :: y :: rest => x ++ sep ++ joinSep sep (y :: rest)

/-- `sorted(d.items())` — how `json.dumps(..., sort_keys=True)` orders the
fields of an object. -/
def sortByKey (fields : List (String × Jval)) : List (String × Jval) :=
  fields.insertionSort fun a b => a.1 ≤ b.1

/-- `sorted(strings)`. -/
def sortStrings (l : List String) : List String :=
  l.insertionSort (· ≤ ·)

mutual

/-- `json.dumps(v, sort_keys=True, ensure_ascii=False)` for the payload
fragment of JSON used by the fingerprint (default separators `", "`/`": "`;
object keys serialized in sorted order). -/
def dumps : Jval → String
  | .str s => jsonStr s
  | .num n => toString n
  | .arr l => "[" ++ joinSep ", " (dumpsList l) ++ "]"
  | .obj fields => "\x7b" ++ joinSep ", " (dumpsFields (sortByKey fields)) ++ "\x7d"
termination_by v => sizeOf v
decreasing_by
  · simp
    try omega
  · have h1 : sizeOf (sortByKey fields) = sizeOf fields :=
      (List.perm_insertionSort _ fields).sizeOf_eq_sizeOf
    simp [h1]
    try omega

/-- The serialized elements of a JSON array, in order. -/
def dumpsList : List Jval → List String
  | [] => []
  | v :: rest => dumps v :: dumpsList rest
termination_by l => sizeOf l
decreasing_by
  · simp
    try omega
  · simp
    try omega

/-- The serialized `"key": value` entries of a (pre-sorted) object. -/
def dumpsFields : List (String × Jval) → List String
  | [] => []
  | kv :: rest => (jsonStr kv.1 ++ ": " ++ dumps kv.2) :: dumpsFields rest
termination_by l => sizeOf l
decreasing_by
  · obtain ⟨k, v⟩ := kv
    simp
    try omega
  · simp
    try omega

end

/-- The fields of the `component_summary` dict in source (insertion) order
(pipeline.py lines 501-510), as JSON object fields. -/
def componentSummaryFields (cs : ComponentSummary) : List (String × Jval) :=
  [("receiver_hits", .num cs.receiver_hits),
   ("service_hits", .num cs.service_hits),
   ("activity_hits", .num cs.activity_hits),
   ("provider_hits", .num cs.provider_hits),
   ("exported_true_hits", .num cs.exported_true_hits),
   ("has_boot_receiver", .num cs.has_boot_receiver),
   ("has_notification_listener", .num cs.has_notification_listener),
   ("has_accessibility_binding", .num cs.has_accessibility_binding)]

/-- `IntelligentScanPipeline._build_component_fingerprint` (pipeline.py
512-529).  `hash` abstracts `hashlib.sha256(...).hexdigest()` — a fixed
function of the canonical UTF-8 serialization; the claims about fingerprints
only ever compare serializations, so they hold for every `hash`.  The
`component_summary` argument is the field list of the summary dict (the
pipeline passes `componentSummaryFields (extract_component_summary snapshot)`),
kept as a list so that serialization-order invariance is expressible. -/
def build_component_fingerprint (hash : String → String) (package_name : String)
    (snapshot : Snapshot) (component_summary : List (String × Jval)) : String :=
  let dumpsys := snapshot.dumpsys_package
  -- line 520: permissions = sorted(set(DANGEROUS_PERMISSION_PATTERN.findall(dumpsys)))
  let permissions := sortStrings (findPerms dumpsys).dedup
  let payload : Jval := .obj
    [("package_name", .str package_name),
     ("permissions", .arr (permissions.map .str)),
     ("component_summary", .obj component_summary),
     ("apk_sha256", .str snapshot.apk_sha256),
     ("apk_remote_path", .str snapshot.apk_remote_path)]
  hash (dumps payload)

/-! ### `intelligence/campaigns.py` -/

/-- `round(x, 3)` over `ℚ`. -/
def rnd3 (q : ℚ) : ℚ := (⌊q * 1000 + 1/2⌋ : ℚ) / 1000

/-- One ATT&CK technique descriptor as read back from storage
(`tech.get("id", "")` is the only field `summarize_campaigns` uses). -/
structure AttackTech where
  id : String
  deriving DecidableEq, Repr

/-- The `raw_snapshot` fields that `summarize_campaigns` reads
(`raw.get("apk_sha256", "")`, `raw.get("component_fingerprint", "")`). -/
structure RawSnapshotKeys where
  apk_sha256 : String := ""
  component_fingerprint : String := ""
  deriving DecidableEq, Repr

/-- One stored-scan record as produced by `ThreatIntelDB._row_to_scan_record`
(intel_db.py lines 233-260), restricted to the fields `summarize_campaigns`
reads. -/
structure ScanRecord where
  id : ℤ
  created_at : String
  device_id : String
  package_name : String
  risk_score : ℚ
  label : Option ℤ := none
  ioc_matches : List String := []
  attack_techniques : List AttackTech := []
  raw_snapshot : RawSnapshotKeys := {}
  deriving DecidableEq, Repr

/-- Python `min(l)` for a non-empty list. -/
def minOfList (l : List ℚ) : ℚ :=
  match l with
  | [] => 0
  | x :: xs => xs.foldl min x

/-- `_trend_label` (campaigns.py lines 34-56).  Timestamps are modelled as
seconds (`ℚ`); `now - datetime.timedelta(hours=24)` is `now - 86400`. -/
def trend_label (timestamps : List ℚ) : String × ℤ × ℤ :=
  match timestamps with
  | [] => ("unknown", 0, 0)
  | _ =>
    let now := maxOfList timestamps
    let window_last := now - 86400
    let window_prev := now - 172800
    let last_count : ℤ := ((timestamps.filter fun v => window_last ≤ v).length : ℤ)
    let prev_count : ℤ := ((timestamps.filter fun v => window_prev ≤ v ∧ v < window_last).length : ℤ)
    if prev_count = 0 ∧ 0 < last_count then ("emerging", last_count, prev_count)
    else
      let rate : ℚ := ((last_count : ℚ) - (prev_count : ℚ)) / max 1 (prev_count : ℚ)
      if 2/5 < rate then ("growing", last_count, prev_count)
      else if rate < -(2/5) then ("declining", last_count, prev_count)
      else ("stable", last_count, prev_count)

/-- `_campaign_id` (campaigns.py lines 59-61); `sha1hex` abstracts
`hashlib.sha1(...).hexdigest()`. -/
def campaign_id (sha1hex : String → String) (seed : String) : String :=
  "camp-" ++ (sha1hex seed).take 12

/-- The identity key of one record (campaigns.py lines 67-78). -/
def recordKey (record : ScanRecord) : String :=
  let apk_sha256 := pyLower (pyStrip record.raw_snapshot.apk_sha256)
  let component_fp := pyLower (pyStrip record.raw_snapshot.component_fingerprint)
  if apk_sha256 ≠ "" then "sha256:" ++ apk_sha256
  else if component_fp ≠ "" then "fingerprint:" ++ component_fp
  else "package:" ++ pyLower record.package_name

/-- `defaultdict(list)` insertion: append to an existing key's list, else add
the key at the end (Python dicts preserve first-insertion order). -/
def groupInsert (groups : List (String × List ScanRecord)) (key : String)
    (record : ScanRecord) : List (String × List ScanRecord) :=
  if groups.any fun g => g.1 = key then
    groups.map fun g => if g.1 = key then (g.1, g.2 ++ [record]) else g
  else groups ++ [(key, [record])]

/-- campaigns.py lines 65-80: the `groups` dict after the first loop. -/
def buildGroups (records : List ScanRecord) : List (String × List ScanRecord) :=
  records.foldl (fun gs record => groupInsert gs (recordKey record) record) []

/-- `sorted(ints)`. -/
def sortInts (l : List ℤ) : List ℤ := l.insertionSort (· ≤ ·)

/-- One output cluster (campaigns.py lines 140-164).  The source dict key
`malicious_label_ratio` is modelled by the field `malicious_label_rate`. -/
structure CampaignCluster where
  campaign_id : String
  cluster_key : String
  campaign_score : ℚ
  campaign_level : String
  scan_count : ℕ
  device_count : ℕ
  package_count : ℕ
  devices : List String
  packages : List String
  avg_risk : ℚ
  max_risk : ℚ
  ioc_density : ℚ
  ioc_matches_total : ℕ
  attack_techniques : List String
  malicious_label_rate : ℚ
  first_seen : String
  last_seen : String
  trend : String
  scans_last_24h : ℤ
  scans_prev_24h : ℤ
  scan_ids : List ℤ
  deriving DecidableEq, Repr

/-- Build the cluster of one (key, items) group (campaigns.py lines 87-164).
`parse_ts` abstracts `_parse_ts` (ISO-8601 text to a timestamp in seconds, or
`None` on failure) and `fmt_ts` abstracts `datetime.isoformat`; `sha1hex`
abstracts `hashlib.sha1`. -/
def mkCluster (parse_ts : String → Option ℚ) (fmt_ts : ℚ → String)
    (sha1hex : String → String) (key : String) (items : List ScanRecord) :
    CampaignCluster :=
  let devices := sortStrings (items.map fun item => item.device_id).dedup
  let packages := sortStrings (items.map fun item => item.package_name).dedup
  let scores := items.map fun item => item.risk_score
  let label_malicious := (items.filter fun item => item.label = some 1).length
  let ioc_count := ((items.map fun item => item.ioc_matches.length).sum)
  let attack_ids := sortStrings
    ((((items.map fun item => item.attack_techniques).flatten.map fun tech => tech.id).filter
      fun s => pyStrip s ≠ "").dedup)
  let timestamps := items.filterMap fun item => parse_ts item.created_at
  let first_seen := if timestamps ≠ [] then fmt_ts (minOfList timestamps) else ""
  let last_seen := if timestamps ≠ [] then fmt_ts (maxOfList timestamps) else ""
  let tr := trend_label timestamps
  let avg_risk := scores.sum / max 1 (scores.length : ℚ)
  let max_risk := if scores ≠ [] then maxOfList scores else 0
  let ioc_density := (ioc_count : ℚ) / max 1 (items.length : ℚ)
  let malicious_rate := (label_malicious : ℚ) / max 1 (items.length : ℚ)
  let base_score : ℚ :=
    (avg_risk * 0.55) + (max_risk * 0.2)
    + (min 100 ((devices.length : ℚ) * 12) * 0.1)
    + (min 100 ((items.length : ℚ) * 8) * 0.05)
    + (min 100 ((attack_ids.length : ℚ) * 15) * 0.05)
    + (min 100 (ioc_density * 40) * 0.03)
    + (min 100 (malicious_rate * 100) * 0.02)
  let with_trend :=
    if tr.1 = "growing" then base_score + 5
    else if tr.1 = "emerging" then base_score + 3
    else base_score
  let campaign_score := rnd2 (min 100 with_trend)
  let cluster_seed := key ++ "|" ++ String.intercalate "," devices ++ "|"
    ++ String.intercalate "," packages
  { campaign_id := campaign_id sha1hex cluster_seed
    cluster_key := key
    campaign_score := campaign_score
    campaign_level := score_to_level campaign_score
    scan_count := items.length
    device_count := devices.length
    package_count := packages.length
    devices := devices
    packages := packages
    avg_risk := rnd2 avg_risk
    max_risk := rnd2 max_risk
    ioc_density := rnd3 ioc_density
    ioc_matches_total := ioc_count
    attack_techniques := attack_ids
    malicious_label_rate := rnd3 malicious_rate
    first_seen := first_seen
    last_seen := last_seen
    trend := tr.1
    scans_last_24h := tr.2.1
    scans_prev_24h := tr.2.2
    scan_ids := sortInts ((items.filter fun item => 0 < item.id).map fun item => item.id) }

/-- The descending `(campaign_score, scan_count)` order used by the final
`clusters.sort(..., reverse=True)`; equal keys keep their original relative
order under the stable insertion sort, as under Python's stable sort. -/
def clusterBefore (a b : CampaignCluster) : Prop :=
  b.campaign_score < a.campaign_score
    ∨ (b.campaign_score = a.campaign_score ∧ b.scan_count ≤ a.scan_count)

instance : DecidableRel clusterBefore := fun a b => by
  unfold clusterBefore
  infer_instance

/-- The summary dict returned by `summarize_campaigns`. -/
structure CampaignSummary where
  generated_at : String
  total_scans : ℕ
  high_risk_scans : ℕ
  global_device_count : ℕ
  global_package_count : ℕ
  clusters : List CampaignCluster
  deriving DecidableEq, Repr

/-- `summarize_campaigns` (campaigns.py lines 64-179).  `now_iso` abstracts
`datetime.now(...).isoformat(...)`. -/
def summarize_campaigns (parse_ts : String → Option ℚ) (fmt_ts : ℚ → String)
    (sha1hex : String → String) (now_iso : String)
    (scan_records : List ScanRecord) (min_cluster_size : ℕ) : CampaignSummary :=
  let groups := buildGroups scan_records
  -- lines 83-84: `if len(items) < max(1, min_cluster_size): continue`
  let kept := groups.filter fun g => ¬ g.2.length < max 1 min_cluster_size
  let clusters := kept.map fun g => mkCluster parse_ts fmt_ts sha1hex g.1 g.2
  let clusters := clusters.insertionSort clusterBefore
  { generated_at := now_iso
    total_scans := scan_records.length
    high_risk_scans := (scan_records.filter fun item => 55 ≤ item.risk_score).length
    global_device_count := (sortStrings (scan_records.map fun item => item.device_id).dedup).length
    global_package_count := (sortStrings (scan_records.map fun item => item.package_name).dedup).length
    clusters := clusters }

/-! ### IOC catalogue and matcher (intel_db.py lines 90-133, pipeline.py 453-488) -/

/-- A row of the `ioc_signatures` table (timestamps are not modelled; no claim
reads them). -/
structure IocRow where
  ioc_type : String
  value : String
  severity : ℤ
  confidence : ℚ
  source : String
  active : ℤ
  deriving DecidableEq, Repr

/-- One input dict of `upsert_iocs` after the `row.get(..., default)` reads of
intel_db.py lines 99-107 (`ioc_type` defaults to "keyword", `value` to "",
`severity` to 5, `confidence` to 0.7, `source` to "local", `active` to True). -/
structure RawIoc where
  ioc_type : String := "keyword"
  value : String := ""
  severity : ℤ := 5
  confidence : ℚ := 7/10
  source : String := "local"
  active : Bool := true
  deriving DecidableEq, Repr

/-- `INSERT ... ON CONFLICT(ioc_type, value) DO UPDATE` (intel_db.py lines
109-123): identity is `(ioc_type, value)`; the mutable fields of an existing
row are overwritten, otherwise the row is appended. -/
def upsertOne (store : List IocRow) (row : IocRow) : List IocRow :=
  if store.any fun q => q.ioc_type = row.ioc_type ∧ q.value = row.value then
    store.map fun q =>
      if q.ioc_type = row.ioc_type ∧ q.value = row.value then
        { q with severity := row.severity, confidence := row.confidence,
                 source := row.source, active := row.active }
      else q
  else store ++ [row]

/-- `ThreatIntelDB.upsert_iocs` (intel_db.py lines 90-126): normalizes each
row, skips rows whose normalized value is empty, upserts the rest, and returns
the processed count with the updated catalogue.  No validation of regex
values happens here. -/
def upsert_iocs (store : List IocRow) (rows : List RawIoc) : ℕ × List IocRow :=
  match rows with
  | [] => (0, store)
  | row :: rest =>
      let ioc_type := pyLower (pyStrip row.ioc_type)
      let value := pyLower (pyStrip row.value)
      if value = "" then upsert_iocs store rest
      else
        let store' := upsertOne store
          { ioc_type := ioc_type, value := value, severity := row.severity,
            confidence := row.confidence, source := pyStrip row.source,
            active := if row.active then 1 else 0 }
        let (n, final) := upsert_iocs store' rest
        (n + 1, final)

/-- `IntelligentScanPipeline._match_iocs` (pipeline.py lines 453-488).
`compile` abstracts `re.compile(value, re.IGNORECASE)` over the lowercased
corpus: `none` models an invalid pattern (`re.error`), `some search` a
compiled pattern's `re.search` truth value.  The rows are
`db.get_active_iocs()`. -/
def match_iocs (compile : String → Option (String → Bool)) (snapshot : Snapshot)
    (rows : List IocRow) : List String :=
  let corpus := pyLower (snapshot.dumpsys_package ++ "\n" ++ snapshot.pm_path
    ++ "\n" ++ snapshot.pm_installer)
  let apk_sha256 := pyLower (pyStrip snapshot.apk_sha256)
  matchIocsLoop compile corpus apk_sha256 rows
where
  matchIocsLoop (compile : String → Option (String → Bool)) (corpus apk_sha256 : String) :
      List IocRow → List String
    | [] => []
    | row :: rest =>
        let ioc_type := pyLower (pyStrip row.ioc_type)
        let value := pyLower (pyStrip row.value)
        if value = "" then matchIocsLoop compile corpus apk_sha256 rest
        else if ioc_type = "hash_sha256" ∨ ioc_type = "sha256" then
          (if apk_sha256 ≠ "" ∧ value = apk_sha256 then ["sha256:" ++ value] else [])
            ++ matchIocsLoop compile corpus apk_sha256 rest
        else if ioc_type = "regex" then
          match compile value with
          | none => matchIocsLoop compile corpus apk_sha256 rest
          | some search =>
              (if search corpus then [value] else [])
                ++ matchIocsLoop compile corpus apk_sha256 rest
        else
          (if strContains corpus value then [value] else [])
            ++ matchIocsLoop compile corpus apk_sha256 rest

/-! ### Supervised-model training entry point (pipeline.py lines 294-339,
ml_model.py) -/

/-- A trained `SupervisedRiskModel` seen at the granularity the training claim
needs: its numeric fit (gradient descent over floats with `math.exp`) is
abstracted behind the `fit` parameter of `train_supervised_model`. -/
structure TrainedModel where
  version : String

/-- `TrainingMetrics` (ml_model.py lines 27-42) restricted to the fields the
pipeline stores. -/
structure TrainMetrics where
  samples : ℕ

/-- One row of the append-only `ml_models` log (intel_db.py lines 75-83,
300-325). -/
structure MlModelRow where
  model_name : String
  model_version : String
  trained_samples : ℕ

/-- The pipeline state touched by `train_supervised_model`: the labeled rows
read from the store, the `ml_models` log, and the in-memory active model. -/
structure PipelineState where
  labeled_rows : List (FeatureVector × ℤ)
  ml_models : List MlModelRow
  active_model : Option TrainedModel

/-- The dict returned on success (pipeline.py lines 334-339). -/
structure TrainOut where
  model_name : String
  model_version : String
  trained_samples : ℕ

/-- `IntelligentScanPipeline.train_supervised_model` (pipeline.py lines
294-339).  `labeled_rows` stands for `db.get_labeled_feature_rows(max_rows)`
after the per-row feature decoding of lines 301-321 (which touches no stored
state); `fit` abstracts `SupervisedRiskModel.fit`, whose own `< 8` validation
raises before any store write, modelled as `Except.error`.  A raised
`ValueError` leaves the state untouched, so the function returns the result
together with the (possibly updated) state. -/
def train_supervised_model
    (fit : List (FeatureVector × ℤ) → Except String (TrainedModel × TrainMetrics))
    (st : PipelineState) (min_samples : ℕ) : Except String TrainOut × PipelineState :=
  if st.labeled_rows.length < min_samples then
    (.error ("Muestras etiquetadas insuficientes: " ++ toString st.labeled_rows.length
      ++ " (minimo requerido: " ++ toString min_samples ++ ")"), st)
  else
    match fit st.labeled_rows with
    | .error e => (.error e, st)
    | .ok (model, metrics) =>
        let st' : PipelineState :=
          { st with
              ml_models := st.ml_models ++
                [{ model_name := "supervised_risk_v1", model_version := model.version,
                   trained_samples := metrics.samples }],
              active_model := some model }
        (.ok { model_name := "supervised_risk_v1", model_version := model.version,
               trained_samples := metrics.samples }, st')

/-! ### Sample concrete inputs used by witnesses and counterexamples -/

/-- A feature vector that triggers no rule (Play-Store installer, all counts
and flags zero). -/
def fvBenign : FeatureVector where
  package_name := "com.example.app"
  installer := "com.android.vending"
  install_path := "/data/app/base.apk"
  permissions_total := 0
  suspicious_permissions_count := 0
  dangerous_permissions_count := 0
  ad_sdk_hits := 0
  tracker_hits := 0
  suspicious_keyword_hits := 0
  boot_receiver_detected := 0
  accessibility_binding_detected := 0
  overlay_permission_detected := 0
  install_packages_permission_detected := 0
  write_settings_detected := 0

/-- The fused-score formula exactly as claim C3 states it:
`round(min(100, 0.65 * rule_score + 0.35 * (100 * model_probability)), 2)`. -/
def claimedFusedScore (rule_score : ℚ) (model_probability : ℚ) : ℚ :=
  rnd2 (min 100 (0.65 * rule_score + 0.35 * (100 * model_probability)))

/-- The fused score as the code computes it (the claim amended minimally: the
ML term entering the blend is `ml_score = round(100 * p, 2)`, not `100 * p`);
when no model is loaded the rule score is used alone; an anomaly score ≥ 70
then adds a flat 12, capped at 100. -/
def specFusedScore (rule_score : ℚ) (ml_prob : Option ℚ) (anom_score : Option ℚ) : ℚ :=
  let base :=
    match ml_prob with
    | some p => rnd2 (min 100 (0.65 * rule_score + 0.35 * rnd2 (100 * p)))
    | none => rule_score
  match anom_score with
  | some a => if 70 ≤ a then min 100 (rnd2 (base + 12)) else base
  | none => base

/-! ## Theorems -/
theorem rnd2_nonneg {q : ℚ} (h : 0 ≤ q) : 0 ≤ rnd2 q := by
  unfold rnd2
  have h1 : (0 : ℚ) ≤ q * 100 + 1/2 := by positivity
  have h2 : (0 : ℤ) ≤ ⌊q * 100 + 1/2⌋ := by
    exact_mod_cast Int.le_floor.mpr (by exact_mod_cast h1)
  positivity

theorem rnd2_le_100 {q : ℚ} (h : q ≤ 100) : rnd2 q ≤ 100 := by
  unfold rnd2
  have h1 : q * 100 + 1/2 ≤ 10000 + 1/2 := by linarith
  have h2 : (⌊q * 100 + 1/2⌋ : ℤ) ≤ 10000 := by
    have := Int.floor_le_floor h1
    simpa using this.trans_eq (by norm_num)
  have h3 : ((⌊q * 100 + 1/2⌋ : ℤ) : ℚ) ≤ 10000 := by exact_mod_cast h2
  linarith

theorem riskBlk1_eq (f : FeatureVector) (s : ℚ) (r : List String) :
    riskBlk1 f (s, r) =
      (s + (if 3 ≤ f.suspicious_permissions_count then 28
            else if 0 < f.suspicious_permissions_count then 14 else 0),
       r ++ (if 3 ≤ f.suspicious_permissions_count then
              ["Multiples permisos de alto riesgo detectados"]
             else if 0 < f.suspicious_permissions_count then
              ["Permisos de alto riesgo presentes"] else [])) := by
  unfold riskBlk1; split_ifs <;> simp

theorem riskBlk2_eq (f : FeatureVector) (s : ℚ) (r : List String) :
    riskBlk2 f (s, r) =
      (s + (if f.overlay_permission_detected ≠ 0 then 10 else 0),
       r ++ (if f.overlay_permission_detected ≠ 0 then
              ["Permiso de superposicion detectado (SYSTEM_ALERT_WINDOW)"] else [])) := by
  unfold riskBlk2; split_ifs <;> simp

theorem riskBlk3_eq (f : FeatureVector) (s : ℚ) (r : List String) :
    riskBlk3 f (s, r) =
      (s + (if f.accessibility_binding_detected ≠ 0 then 14 else 0),
       r ++ (if f.accessibility_binding_detected ≠ 0 then
              ["Capacidad de binding de servicio de accesibilidad"] else [])) := by
  unfold riskBlk3; split_ifs <;> simp

theorem riskBlk4_eq (f : FeatureVector) (s : ℚ) (r : List String) :
    riskBlk4 f (s, r) =
      (s + (if f.install_packages_permission_detected ≠ 0 then 12 else 0),
       r ++ (if f.install_packages_permission_detected ≠ 0 then
              ["Capacidad de instalar paquetes detectada"] else [])) := by
  unfold riskBlk4; split_ifs <;> simp

theorem riskBlk5_eq (f : FeatureVector) (s : ℚ) (r : List String) :
    riskBlk5 f (s, r) =
      (s + (if f.write_settings_detected ≠ 0 then 10 else 0),
       r ++ (if f.write_settings_detected ≠ 0 then
              ["Capacidad de modificar ajustes del sistema"] else [])) := by
  unfold riskBlk5; split_ifs <;> simp

theorem riskBlk6_eq (f : FeatureVector) (s : ℚ) (r : List String) :
    riskBlk6 f (s, r) =
      (s + (if f.boot_receiver_detected ≠ 0 then 8 else 0),
       r ++ (if f.boot_receiver_detected ≠ 0 then
              ["Persistencia potencial al arranque detectada"] else [])) := by
  unfold riskBlk6; split_ifs <;> simp

theorem riskBlk7_eq (f : FeatureVector) (s : ℚ) (r : List String) :
    riskBlk7 f (s, r) =
      (s + (if 4 ≤ f.ad_sdk_hits then 15 else if 0 < f.ad_sdk_hits then 6 else 0),
       r ++ (if 4 ≤ f.ad_sdk_hits then
              ["Alta densidad de librerias SDK de anuncios/tracking"]
             else if 0 < f.ad_sdk_hits then
              ["Presencia de SDK de anuncios/tracking"] else [])) := by
  unfold riskBlk7; split_ifs <;> simp

theorem riskBlk8_eq (f : FeatureVector) (s : ℚ) (r : List String) :
    riskBlk8 f (s, r) =
      (s + (if 3 ≤ f.tracker_hits then 10 else if 0 < f.tracker_hits then 5 else 0),
       r ++ (if 3 ≤ f.tracker_hits then
              ["Multiples indicadores de tracking en metadatos"]
             else if 0 < f.tracker_hits then
              ["Indicadores de tracking en metadatos"] else [])) := by
  unfold riskBlk8; split_ifs <;> simp

theorem riskBlk9_eq (f : FeatureVector) (s : ℚ) (r : List String) :
    riskBlk9 f (s, r) =
      (s + (if 2 ≤ f.suspicious_keyword_hits then 6 else 0),
       r ++ (if 2 ≤ f.suspicious_keyword_hits then
              ["Keywords sensibles detectadas en informacion de paquete"] else [])) := by
  unfold riskBlk9; split_ifs <;> simp

theorem riskBlk10_eq (f : FeatureVector) (s : ℚ) (r : List String) :
    riskBlk10 f (s, r) =
      (s + (if 8 ≤ f.dangerous_permissions_count then 12
            else if 4 ≤ f.dangerous_permissions_count then 6 else 0),
       r ++ (if 8 ≤ f.dangerous_permissions_count then
              ["Superficie de permisos peligrosos muy alta"]
             else if 4 ≤ f.dangerous_permissions_count then
              ["Superficie de permisos peligrosos elevada"] else [])) := by
  unfold riskBlk10; split_ifs <;> simp

theorem riskBlk11_eq (ioc_matches : List String) (s : ℚ) (r : List String) :
    riskBlk11 ioc_matches (s, r) =
      (s + (if ioc_matches ≠ [] then min 32 (8 * (ioc_matches.length : ℚ)) else 0),
       r ++ (if ioc_matches ≠ [] then
              ["Coincidencias IOC activas: " ++ toString ioc_matches.length] else [])) := by
  unfold riskBlk11; split_ifs <;> simp

theorem riskBlk12_eq (f : FeatureVector) (s : ℚ) (r : List String) :
    riskBlk12 f (s, r) =
      (s + (if strContains (pyLower f.installer) "unknown" = true ∨ pyStrip f.installer = ""
            then 6 else 0),
       r ++ (if strContains (pyLower f.installer) "unknown" = true ∨ pyStrip f.installer = ""
             then ["Instalador desconocido o no confiable"] else [])) := by
  unfold riskBlk12; split_ifs <;> simp

/-- The engine result, characterized against the claim-side weight table. -/
theorem rule_evaluate_eq (f : FeatureVector) (ioc_matches : List String) :
    RuleBasedRiskEngine.evaluate f ioc_matches =
      { score := min 100 (rnd2 (specRuleScoreSum f ioc_matches)),
        level := score_to_level (min 100 (rnd2 (specRuleScoreSum f ioc_matches))),
        reasons := (RuleBasedRiskEngine.evaluate f ioc_matches).reasons } := by
  simp only [RuleBasedRiskEngine.evaluate, riskBlk1_eq, riskBlk2_eq, riskBlk3_eq,
    riskBlk4_eq, riskBlk5_eq, riskBlk6_eq, riskBlk7_eq, riskBlk8_eq, riskBlk9_eq,
    riskBlk10_eq, riskBlk11_eq, riskBlk12_eq, RiskResult.mk.injEq]
  have hsum : (0 : ℚ)
      + (if 3 ≤ f.suspicious_permissions_count then (28 : ℚ)
         else if 0 < f.suspicious_permissions_count then 14 else 0)
      + (if f.overlay_permission_detected ≠ 0 then (10 : ℚ) else 0)
      + (if f.accessibility_binding_detected ≠ 0 then (14 : ℚ) else 0)
      + (if f.install_packages_permission_detected ≠ 0 then (12 : ℚ) else 0)
      + (if f.write_settings_detected ≠ 0 then (10 : ℚ) else 0)
      + (if f.boot_receiver_detected ≠ 0 then (8 : ℚ) else 0)
      + (if 4 ≤ f.ad_sdk_hits then (15 : ℚ) else if 0 < f.ad_sdk_hits then 6 else 0)
      + (if 3 ≤ f.tracker_hits then (10 : ℚ) else if 0 < f.tracker_hits then 5 else 0)
      + (if 2 ≤ f.suspicious_keyword_hits then (6 : ℚ) else 0)
      + (if 8 ≤ f.dangerous_permissions_count then (12 : ℚ)
         else if 4 ≤ f.dangerous_permissions_count then 6 else 0)
      + (if ioc_matches ≠ [] then min 32 (8 * (ioc_matches.length : ℚ)) else 0)
      + (if strContains (pyLower f.installer) "unknown" = true ∨ pyStrip f.installer = ""
         then (6 : ℚ) else 0)
      = specRuleScoreSum f ioc_matches := by
    unfold specRuleScoreSum; ring
  rw [hsum]
  exact ⟨rfl, rfl, trivial⟩

/-- The engine appends exactly one reason per triggered condition. -/
theorem rule_reasons_len (f : FeatureVector) (ioc_matches : List String) :
    (RuleBasedRiskEngine.evaluate f ioc_matches).reasons.length
      = specTriggeredCount f ioc_matches := by
  simp only [RuleBasedRiskEngine.evaluate, riskBlk1_eq, riskBlk2_eq, riskBlk3_eq,
    riskBlk4_eq, riskBlk5_eq, riskBlk6_eq, riskBlk7_eq, riskBlk8_eq, riskBlk9_eq,
    riskBlk10_eq, riskBlk11_eq, riskBlk12_eq]
  simp only [List.nil_append, List.length_append, apply_ite List.length,
    List.length_singleton, List.length_nil]
  unfold specTriggeredCount
  ring

/-- C1: for every feature vector and IOC-match list, the rule engine's score is
the sum of exactly the triggered weights of the documented table, clamped above
at 100 and rounded to two decimals; one reason string is appended per triggered
condition; and the level is derived from that score. -/
theorem claim_C1 (f : FeatureVector) (ioc_matches : List String) :
    (RuleBasedRiskEngine.evaluate f ioc_matches).score
        = min 100 (rnd2 (specRuleScoreSum f ioc_matches))
      ∧ (RuleBasedRiskEngine.evaluate f ioc_matches).level
        = score_to_level ((RuleBasedRiskEngine.evaluate f ioc_matches).score)
      ∧ (RuleBasedRiskEngine.evaluate f ioc_matches).reasons.length
        = specTriggeredCount f ioc_matches := by
  refine ⟨?_, ?_, rule_reasons_len f ioc_matches⟩
  · rw [rule_evaluate_eq]
  · rw [rule_evaluate_eq]

theorem specRuleScoreSum_nonneg (f : FeatureVector) (ioc_matches : List String) :
    0 ≤ specRuleScoreSum f ioc_matches := by
  unfold specRuleScoreSum
  have hmin : (0 : ℚ) ≤ min 32 (8 * (ioc_matches.length : ℚ)) :=
    le_min (by norm_num) (by positivity)
  repeat' apply add_nonneg
  all_goals try split_ifs
  all_goals first | exact hmin | norm_num

/-- The rule score always lies in [0, 100]. -/
theorem rule_score_bounds (f : FeatureVector) (ioc_matches : List String) :
    0 ≤ (RuleBasedRiskEngine.evaluate f ioc_matches).score
      ∧ (RuleBasedRiskEngine.evaluate f ioc_matches).score ≤ 100 := by
  rw [rule_evaluate_eq]
  exact ⟨le_min (by norm_num) (rnd2_nonneg (specRuleScoreSum_nonneg f ioc_matches)),
    min_le_left _ _⟩

theorem score_to_level_critical (s : ℚ) : score_to_level s = "CRITICAL" ↔ 75 ≤ s := by
  unfold score_to_level
  split_ifs with h1 h2 h3
  · exact iff_of_true rfl h1
  · exact iff_of_false (by decide) h1
  · exact iff_of_false (by decide) h1
  · exact iff_of_false (by decide) h1

theorem score_to_level_high (s : ℚ) :
    score_to_level s = "HIGH" ↔ 55 ≤ s ∧ s < 75 := by
  unfold score_to_level
  split_ifs with h1 h2 h3
  · exact iff_of_false (by decide) fun hc => not_le_of_lt hc.2 h1
  · exact iff_of_true rfl ⟨h2, lt_of_not_le h1⟩
  · exact iff_of_false (by decide) fun hc => h2 hc.1
  · exact iff_of_false (by decide) fun hc => h2 hc.1

theorem score_to_level_medium (s : ℚ) :
    score_to_level s = "MEDIUM" ↔ 30 ≤ s ∧ s < 55 := by
  unfold score_to_level
  split_ifs with h1 h2 h3
  · exact iff_of_false (by decide) fun hc =>
      not_le_of_lt hc.2 (le_trans (by norm_num) h1)
  · exact iff_of_false (by decide) fun hc => not_le_of_lt hc.2 h2
  · exact iff_of_true rfl ⟨h3, lt_of_not_le h2⟩
  · exact iff_of_false (by decide) fun hc => h3 hc.1

theorem score_to_level_low (s : ℚ) : score_to_level s = "LOW" ↔ s < 30 := by
  unfold score_to_level
  split_ifs with h1 h2 h3
  · exact iff_of_false (by decide) fun hc =>
      not_le_of_lt hc (le_trans (by norm_num) h1)
  · exact iff_of_false (by decide) fun hc =>
      not_le_of_lt hc (le_trans (by norm_num) h2)
  · exact iff_of_false (by decide) fun hc => not_le_of_lt hc h3
  · exact iff_of_true rfl (lt_of_not_le h3)

/-- The fused score of `scan_package` as a function of the rule score, the
optional model probability and the optional anomaly score. -/
theorem scan_fuse_score_eq (f : FeatureVector) (ioc_matches : List String)
    (ml_prob : Option ℚ) (model_version : String) (attack_count : ℕ)
    (anom : Option AnomalySignal) (fmt : ℚ → String) :
    (scan_fuse f ioc_matches ml_prob model_version attack_count anom fmt).1
      = specFusedScore ((RuleBasedRiskEngine.evaluate f ioc_matches).score) ml_prob
          (anom.map AnomalySignal.score) := by
  cases ml_prob <;> cases anom <;>
    simp [scan_fuse, specFusedScore,
      apply_ite (Prod.fst (α := ℚ) (β := List String)), ite_self, mul_comm]

theorem specFusedScore_bounds (rs : ℚ) (ml_prob : Option ℚ) (anom_score : Option ℚ)
    (hrs0 : 0 ≤ rs) (hrs1 : rs ≤ 100) (hp : ∀ p ∈ ml_prob, 0 ≤ p ∧ p ≤ 1) :
    0 ≤ specFusedScore rs ml_prob anom_score
      ∧ specFusedScore rs ml_prob anom_score ≤ 100 := by
  have hbase : 0 ≤ (match ml_prob with
        | some p => rnd2 (min 100 (0.65 * rs + 0.35 * rnd2 (100 * p)))
        | none => rs)
      ∧ (match ml_prob with
        | some p => rnd2 (min 100 (0.65 * rs + 0.35 * rnd2 (100 * p)))
        | none => rs) ≤ 100 := by
    cases ml_prob with
    | none => exact ⟨hrs0, hrs1⟩
    | some p =>
      obtain ⟨hp0, hp1⟩ := hp p rfl
      have hms0 : (0 : ℚ) ≤ rnd2 (100 * p) := rnd2_nonneg (by positivity)
      exact ⟨rnd2_nonneg (le_min (by norm_num)
          (add_nonneg (mul_nonneg (by norm_num) hrs0) (mul_nonneg (by norm_num) hms0))),
        rnd2_le_100 (min_le_left _ _)⟩
  cases anom_score with
  | none => simpa [specFusedScore] using hbase
  | some a =>
    by_cases h : (70 : ℚ) ≤ a
    · refine ⟨?_, ?_⟩ <;> simp only [specFusedScore, if_pos h]
      · exact le_min (by norm_num) (rnd2_nonneg (by linarith [hbase.1]))
      · exact min_le_left _ _
    · refine ⟨?_, ?_⟩ <;> simp only [specFusedScore, if_neg h]
      · exact hbase.1
      · exact hbase.2

/-- C2: every risk score the system produces — the rule-engine score and the
fused score carried by a scan result — lies in [0, 100]; the accompanying
level is computed from that score by `_score_to_level`, whose output is
CRITICAL iff score ≥ 75, HIGH iff 55 ≤ score < 75, MEDIUM iff 30 ≤ score < 55,
LOW iff score < 30.  The model probability, when a model is loaded, is a
probability (`predict_proba` is a rounded sigmoid), which the hypothesis
records. -/
theorem claim_C2 (f : FeatureVector) (ioc_matches : List String) (ml_prob : Option ℚ)
    (hp : ∀ p ∈ ml_prob, 0 ≤ p ∧ p ≤ 1) (model_version : String) (attack_count : ℕ)
    (anom : Option AnomalySignal) (fmt : ℚ → String) :
    (0 ≤ (RuleBasedRiskEngine.evaluate f ioc_matches).score
      ∧ (RuleBasedRiskEngine.evaluate f ioc_matches).score ≤ 100
      ∧ (RuleBasedRiskEngine.evaluate f ioc_matches).level
          = score_to_level ((RuleBasedRiskEngine.evaluate f ioc_matches).score))
    ∧ (0 ≤ (scan_fuse f ioc_matches ml_prob model_version attack_count anom fmt).1
      ∧ (scan_fuse f ioc_matches ml_prob model_version attack_count anom fmt).1 ≤ 100
      ∧ (scan_fuse f ioc_matches ml_prob model_version attack_count anom fmt).2.1
          = score_to_level
              ((scan_fuse f ioc_matches ml_prob model_version attack_count anom fmt).1))
    ∧ (∀ s : ℚ,
        (score_to_level s = "CRITICAL" ↔ 75 ≤ s)
        ∧ (score_to_level s = "HIGH" ↔ 55 ≤ s ∧ s < 75)
        ∧ (score_to_level s = "MEDIUM" ↔ 30 ≤ s ∧ s < 55)
        ∧ (score_to_level s = "LOW" ↔ s < 30)) := by
  obtain ⟨hr0, hr1⟩ := rule_score_bounds f ioc_matches
  have hfb := specFusedScore_bounds ((RuleBasedRiskEngine.evaluate f ioc_matches).score)
    ml_prob (anom.map AnomalySignal.score) hr0 hr1 hp
  refine ⟨⟨hr0, hr1, ?_⟩, ⟨?_, ?_, rfl⟩,
    fun s => ⟨score_to_level_critical s, score_to_level_high s,
      score_to_level_medium s, score_to_level_low s⟩⟩
  · rw [rule_evaluate_eq]
  · rw [scan_fuse_score_eq]
    exact hfb.1
  · rw [scan_fuse_score_eq]
    exact hfb.2

/-- Witness for C2 at a concrete input (model probability 1/2). -/
theorem claim_C2_witness :
    (∀ p ∈ (some (1/2 : ℚ) : Option ℚ), 0 ≤ p ∧ p ≤ 1)
    ∧ 0 ≤ (scan_fuse fvBenign [] (some (1/2)) "v1" 0 none (fun _ => "")).1
    ∧ (scan_fuse fvBenign [] (some (1/2)) "v1" 0 none (fun _ => "")).1 ≤ 100 := by
  have hyp : ∀ p ∈ (some (1/2 : ℚ) : Option ℚ), 0 ≤ p ∧ p ≤ 1 := by
    intro p hp
    simp only [Option.mem_def, Option.some.injEq] at hp
    subst hp
    norm_num
  have h := claim_C2 fvBenign [] (some (1/2)) hyp "v1" 0 none (fun _ => "")
  exact ⟨hyp, h.2.1.1, h.2.1.2.1⟩

/-- When the anomaly score reaches 70, the appended (last) reason cites the
anomaly score and zmax (pipeline.py line 187). -/
theorem scan_fuse_anom_reason (f : FeatureVector) (ioc_matches : List String)
    (ml_prob : Option ℚ) (model_version : String) (attack_count : ℕ)
    (a : AnomalySignal) (fmt : ℚ → String) (h : 70 ≤ a.score) :
    ((scan_fuse f ioc_matches ml_prob model_version attack_count (some a) fmt).2.2).getLast?
      = some ("Anomalia estadistica alta (score=" ++ fmt a.score ++ ", zmax="
          ++ fmt a.zmax ++ ")") := by
  simp [scan_fuse, if_pos h, List.getLast?_concat]

/-- C3 (amended): the fused score equals
`round(min(100, 0.65·rule_score + 0.35·ml_score), 2)` where
`ml_score = round(100·model_probability, 2)` when a model is loaded (the code
rounds the ML term to 2 decimals before blending — the claim's unrounded
`100·model_probability` is falsified by `claim_C3_counterexample`), and the
rule score alone when none is; an anomaly score ≥ 70 then adds a flat 12
capped at 100 and appends a reason citing the anomaly score and zmax; the
final level is recomputed from the fused score with the 30/55/75 thresholds. -/
theorem claim_C3 (f : FeatureVector) (ioc_matches : List String) (ml_prob : Option ℚ)
    (model_version : String) (attack_count : ℕ) (anom : Option AnomalySignal)
    (fmt : ℚ → String) :
    (scan_fuse f ioc_matches ml_prob model_version attack_count anom fmt).1
        = specFusedScore ((RuleBasedRiskEngine.evaluate f ioc_matches).score) ml_prob
            (anom.map AnomalySignal.score)
      ∧ (scan_fuse f ioc_matches ml_prob model_version attack_count anom fmt).2.1
        = score_to_level
            ((scan_fuse f ioc_matches ml_prob model_version attack_count anom fmt).1)
      ∧ (∀ a : AnomalySignal, anom = some a → 70 ≤ a.score →
          ((scan_fuse f ioc_matches ml_prob model_version attack_count anom fmt).2.2).getLast?
            = some ("Anomalia estadistica alta (score=" ++ fmt a.score ++ ", zmax="
                ++ fmt a.zmax ++ ")")) := by
  refine ⟨scan_fuse_score_eq f ioc_matches ml_prob model_version attack_count anom fmt,
    rfl, ?_⟩
  intro a ha hscore
  subst ha
  exact scan_fuse_anom_reason f ioc_matches ml_prob model_version attack_count a fmt hscore

/-- Witness for C3 at a concrete input: anomaly signal (75, 3), no model. -/
theorem claim_C3_witness :
    (scan_fuse fvBenign [] none "v1" 0 (some ⟨75, 3⟩) (fun _ => "x")).1
        = specFusedScore ((RuleBasedRiskEngine.evaluate fvBenign []).score) none
            ((some (⟨75, 3⟩ : AnomalySignal)).map AnomalySignal.score)
      ∧ ((scan_fuse fvBenign [] none "v1" 0 (some ⟨75, 3⟩) (fun _ => "x")).2.2).getLast?
        = some ("Anomalia estadistica alta (score=" ++ "x" ++ ", zmax=" ++ "x" ++ ")") := by
  have h := claim_C3 fvBenign [] none "v1" 0 (some ⟨75, 3⟩) (fun _ => "x")
  exact ⟨h.1, h.2.2 ⟨75, 3⟩ rfl (by norm_num)⟩

/-- Counterexample to C3 as stated: with a rule score of 0 and model
probability 0.120143, the code blends `0.35 * round(12.0143, 2) = 4.2035`,
rounding to 4.20, while the claim's `0.35 * 12.0143 = 4.205005` rounds to
4.21. -/
theorem claim_C3_counterexample :
    (scan_fuse fvBenign [] (some (120143/1000000)) "v1" 0 none (fun _ => "")).1
      ≠ claimedFusedScore ((RuleBasedRiskEngine.evaluate fvBenign []).score)
          (120143/1000000) := by
  have hc1 : strContains (pyLower "com.android.vending") "unknown" = false := by decide
  have hc2 : ¬ (pyStrip "com.android.vending" = "") := by decide
  have hsum : specRuleScoreSum fvBenign [] = 0 := by
    unfold specRuleScoreSum
    simp [fvBenign, hc1, hc2]
  have hrule : (RuleBasedRiskEngine.evaluate fvBenign []).score = 0 := by
    rw [rule_evaluate_eq, hsum]
    show min 100 (rnd2 0) = 0
    unfold rnd2
    norm_num
  rw [scan_fuse_score_eq, hrule]
  simp only [Option.map_none']
  have hms : rnd2 (100 * (120143/1000000 : ℚ)) = 1201/100 := by
    unfold rnd2
    norm_num
  have hlhs : specFusedScore 0 (some (120143/1000000)) none = 21/5 := by
    unfold specFusedScore
    simp only [hms]
    have h1 : (0.65 : ℚ) * 0 + 0.35 * (1201/100) = 42035/10000 := by norm_num
    rw [h1, min_eq_right (by norm_num : (42035/10000 : ℚ) ≤ 100)]
    unfold rnd2
    norm_num
  have hrhs : claimedFusedScore 0 (120143/1000000) = 421/100 := by
    unfold claimedFusedScore
    have h1 : (0.65 : ℚ) * 0 + 0.35 * (100 * (120143/1000000)) = 4205005/1000000 := by
      norm_num
    rw [h1, min_eq_right (by norm_num : (4205005/1000000 : ℚ) ≤ 100)]
    unfold rnd2
    norm_num
  rw [hlhs, hrhs]
  norm_num

theorem zLoop_eq_map (f : FeatureVector) (b : BaselineStats) (l : List String) :
    zLoop f b l = l.map (zOf f b) := by
  induction l with
  | nil => rfl
  | cons n rest ih => simp [zLoop, ih]

/-- C4: the anomaly detector yields no signal (None, never an error) exactly
when the baseline is absent or its sample_size < 8; otherwise it returns the
claim's formula: z per tracked numeric feature with the std ≈ 0 sentinel,
score = min(100, round(zmax·18 + L2(z)·4, 2)), and zmax reported alongside. -/
theorem claim_C4 (f : FeatureVector) (baseline : Option BaselineStats) :
    ZScoreAnomalyDetector.evaluate f baseline
      = match baseline with
        | none => none
        | some b => if b.sample_size < 8 then none else some (specAnomaly f b) := by
  cases baseline with
  | none => rfl
  | some b =>
    by_cases h : b.sample_size < 8
    · simp [ZScoreAnomalyDetector.evaluate, if_pos h]
    · simp only [ZScoreAnomalyDetector.evaluate, if_neg h, specAnomaly, zLoop_eq_map]
      have hne : NUMERIC_FIELDS.map (zOf f b) ≠ [] := by simp [NUMERIC_FIELDS]
      simp [hne]

/-- C10: in every feature vector built by `_build_features`,
`dangerous_permissions_count` equals `permissions_total`, and both are the
number of distinct `android.permission.*` identifiers matched in the dumpsys
text — so the rule engine's dangerous-permission tiers trigger on the total
permission count. -/
theorem claim_C10 (snapshot : Snapshot) (package_name : String) :
    (build_features snapshot package_name).dangerous_permissions_count
        = (build_features snapshot package_name).permissions_total
      ∧ (build_features snapshot package_name).permissions_total
        = (((findPerms snapshot.dumpsys_package).dedup).length : ℤ) :=
  ⟨rfl, rfl⟩

/-- C9 is a code bug: the dumpsys text `"exported=true"` contains
`exported=true` (shown by the first conjunct), yet the component summary
records zero exported-true hits, because `EXPORTED_TRUE_PATTERN` is compiled
from the raw string `"exported\\s*=\\s*true"` in which `\\` is an escaped
literal backslash: the regex demands a literal `\` on each side of `=` and can
never match real dumpsys output. -/
theorem claim_C9_code_bug :
    strContains "exported=true" "exported=true" = true
    ∧ (extract_component_summary
        { dumpsys_package := "exported=true", pm_path := "", pm_installer := "" }).exported_true_hits
      = 0 := by
  constructor
  · decide
  · decide

/-- The embedded pattern does match its literal-backslash reading (evidence
that the count function is not degenerately zero): `exported\ss=\true` is
counted once. -/
theorem exported_pattern_matches_backslash_form :
    countExportedTrue "exported\\ss=\\true" = 1 ∧ countExportedTrue "exported\\=\\true" = 1 := by
  constructor
  · decide
  · decide

/-- `sorted` is determined by the multiset of its input. -/
theorem sortStrings_congr {l1 l2 : List String} (h : l1.Perm l2) :
    sortStrings l1 = sortStrings l2 := by
  apply List.eq_of_perm_of_sorted (r := fun a b : String => a ≤ b)
  · exact (List.perm_insertionSort _ l1).trans (h.trans (List.perm_insertionSort _ l2).symm)
  · exact List.sorted_insertionSort _ l1
  · exact List.sorted_insertionSort _ l2

theorem sortByKey_sorted_le (l : List (String × Jval)) :
    List.Sorted (fun a b : String × Jval => a.1 ≤ b.1) (sortByKey l) := by
  haveI : IsTotal (String × Jval) fun a b => a.1 ≤ b.1 := ⟨fun a b => le_total a.1 b.1⟩
  haveI : IsTrans (String × Jval) fun a b => a.1 ≤ b.1 := ⟨fun a b c h1 h2 => le_trans h1 h2⟩
  exact List.sorted_insertionSort _ l

theorem sortByKey_sorted_lt {l : List (String × Jval)} (hnd : (l.map Prod.fst).Nodup) :
    List.Sorted (fun a b : String × Jval => a.1 < b.1) (sortByKey l) := by
  have hle := sortByKey_sorted_le l
  have hkeys : ((sortByKey l).map Prod.fst).Nodup :=
    (((List.perm_insertionSort _ l).map Prod.fst).nodup_iff).mpr hnd
  have hne : List.Pairwise (fun a b : String × Jval => a.1 ≠ b.1) (sortByKey l) :=
    List.pairwise_map.mp hkeys
  exact (hle.and hne).imp fun h => lt_of_le_of_ne h.1 h.2

/-- `sorted(d.items())` is determined by the key-value set when keys are
unique — field insertion order is irrelevant. -/
theorem sortByKey_congr {l1 l2 : List (String × Jval)} (hp : l1.Perm l2)
    (hnd : (l1.map Prod.fst).Nodup) : sortByKey l1 = sortByKey l2 := by
  haveI : IsAntisymm (String × Jval) fun a b => a.1 < b.1 :=
    ⟨fun a b h1 h2 => absurd h1 (lt_asymm h2)⟩
  apply List.eq_of_perm_of_sorted (r := fun a b : String × Jval => a.1 < b.1)
  · exact (List.perm_insertionSort _ l1).trans (hp.trans (List.perm_insertionSort _ l2).symm)
  · exact sortByKey_sorted_lt hnd
  · exact sortByKey_sorted_lt (((hp.map Prod.fst).nodup_iff).mp hnd)

/-- Serializing a JSON object ignores field insertion order (unique keys). -/
theorem dumps_obj_congr {l1 l2 : List (String × Jval)} (hp : l1.Perm l2)
    (hnd : (l1.map Prod.fst).Nodup) : dumps (Jval.obj l1) = dumps (Jval.obj l2) := by
  simp only [dumps]
  rw [sortByKey_congr hp hnd]

theorem sortByKey_payload (v1 v2 v3 v4 v5 : Jval) :
    sortByKey [("package_name", v1), ("permissions", v2), ("component_summary", v3),
        ("apk_sha256", v4), ("apk_remote_path", v5)]
      = [("apk_remote_path", v5), ("apk_sha256", v4), ("component_summary", v3),
         ("package_name", v1), ("permissions", v2)] := by
  have hba : ¬ (("apk_sha256" : String) ≤ "apk_remote_path") := by
    rw [String.le_iff_toList_le]
    decide
  have hca : ¬ (("component_summary" : String) ≤ "apk_remote_path") := by
    rw [String.le_iff_toList_le]
    decide
  have hcb : ¬ (("component_summary" : String) ≤ "apk_sha256") := by
    rw [String.le_iff_toList_le]
    decide
  have hqa : ¬ (("permissions" : String) ≤ "apk_remote_path") := by
    rw [String.le_iff_toList_le]
    decide
  have hqb : ¬ (("permissions" : String) ≤ "apk_sha256") := by
    rw [String.le_iff_toList_le]
    decide
  have hqc : ¬ (("permissions" : String) ≤ "component_summary") := by
    rw [String.le_iff_toList_le]
    decide
  have hpa : ¬ (("package_name" : String) ≤ "apk_remote_path") := by
    rw [String.le_iff_toList_le]
    decide
  have hpb : ¬ (("package_name" : String) ≤ "apk_sha256") := by
    rw [String.le_iff_toList_le]
    decide
  have hpc : ¬ (("package_name" : String) ≤ "component_summary") := by
    rw [String.le_iff_toList_le]
    decide
  have hpq : ("package_name" : String) ≤ "permissions" := by
    rw [String.le_iff_toList_le]
    decide
  simp only [sortByKey, List.insertionSort, List.orderedInsert, if_neg hba, if_neg hca,
    if_neg hcb, if_neg hqa, if_neg hqb, if_neg hqc, if_neg hpa, if_neg hpb, if_neg hpc,
    if_pos hpq]

/-- The canonical serialization of the fingerprint payload, with its five keys
in sorted order. -/
theorem dumps_payload (pkg sha path : String) (perms : List Jval)
    (cs : List (String × Jval)) :
    dumps (Jval.obj [("package_name", Jval.str pkg), ("permissions", Jval.arr perms),
        ("component_summary", Jval.obj cs), ("apk_sha256", Jval.str sha),
        ("apk_remote_path", Jval.str path)])
      = "\x7b" ++ joinSep ", "
          [jsonStr "apk_remote_path" ++ ": " ++ jsonStr path,
           jsonStr "apk_sha256" ++ ": " ++ jsonStr sha,
           jsonStr "component_summary" ++ ": " ++ dumps (Jval.obj cs),
           jsonStr "package_name" ++ ": " ++ jsonStr pkg,
           jsonStr "permissions" ++ ": " ++ dumps (Jval.arr perms)] ++ "\x7d" := by
  conv_lhs => rw [dumps]
  rw [sortByKey_payload]
  simp [dumpsFields, dumps]

/-- C5: for any two snapshots with the same package name, the same set of
permission identifiers (in any order), the same component summary (its dict
fields in any serialization/insertion order, keys unique), and the same
artifact hash and remote path, `_build_component_fingerprint` returns
byte-identical digests — for every digest function of the canonical bytes. -/
theorem claim_C5 (hash : String → String) (package_name : String)
    (snap1 snap2 : Snapshot) (cs1 cs2 : List (String × Jval))
    (hperm : (findPerms snap1.dumpsys_package).Perm (findPerms snap2.dumpsys_package))
    (hsha : snap1.apk_sha256 = snap2.apk_sha256)
    (hpath : snap1.apk_remote_path = snap2.apk_remote_path)
    (hcs : cs1.Perm cs2) (hnd : (cs1.map Prod.fst).Nodup) :
    build_component_fingerprint hash package_name snap1 cs1
      = build_component_fingerprint hash package_name snap2 cs2 := by
  have hperms : sortStrings (findPerms snap1.dumpsys_package).dedup
      = sortStrings (findPerms snap2.dumpsys_package).dedup :=
    sortStrings_congr hperm.dedup
  have hobj : dumps (Jval.obj cs1) = dumps (Jval.obj cs2) := dumps_obj_congr hcs hnd
  simp only [build_component_fingerprint]
  rw [dumps_payload, dumps_payload, hperms, hsha, hpath, hobj]

/-- Witness for C5: permission order reversed in the dumpsys text, summary
fields reordered, identical artifact identity. -/
theorem claim_C5_witness :
    build_component_fingerprint (fun s => s) "com.example.app"
        { dumpsys_package := "android.permission.CAMERA android.permission.READ_SMS",
          pm_path := "", pm_installer := "", apk_remote_path := "/r",
          apk_sha256 := "h", apk_size_bytes := 0, apk_pull_error := "" }
        [("a", Jval.num 1), ("b", Jval.num 2)]
      = build_component_fingerprint (fun s => s) "com.example.app"
        { dumpsys_package := "android.permission.READ_SMS android.permission.CAMERA",
          pm_path := "", pm_installer := "", apk_remote_path := "/r",
          apk_sha256 := "h", apk_size_bytes := 0, apk_pull_error := "" }
        [("b", Jval.num 2), ("a", Jval.num 1)] := by
  have e1 : findPerms "android.permission.CAMERA android.permission.READ_SMS"
      = ["android.permission.CAMERA", "android.permission.READ_SMS"] := by decide
  have e2 : findPerms "android.permission.READ_SMS android.permission.CAMERA"
      = ["android.permission.READ_SMS", "android.permission.CAMERA"] := by decide
  apply claim_C5
  · show (findPerms "android.permission.CAMERA android.permission.READ_SMS").Perm
      (findPerms "android.permission.READ_SMS android.permission.CAMERA")
    rw [e1, e2]
    exact List.Perm.swap _ _ _
  · rfl
  · rfl
  · exact List.Perm.swap _ _ _
  · decide

/-- C7: with fewer labeled rows than `min_samples`, training fails with a
validation error naming the actual count and the required minimum, and
mutates no stored state: no model-version row is appended to the model log
and the active model is unchanged. -/
theorem claim_C7
    (fit : List (FeatureVector × ℤ) → Except String (TrainedModel × TrainMetrics))
    (st : PipelineState) (min_samples : ℕ)
    (h : st.labeled_rows.length < min_samples) :
    (train_supervised_model fit st min_samples).1
        = .error ("Muestras etiquetadas insuficientes: " ++ toString st.labeled_rows.length
            ++ " (minimo requerido: " ++ toString min_samples ++ ")")
      ∧ (train_supervised_model fit st min_samples).2.ml_models = st.ml_models
      ∧ (train_supervised_model fit st min_samples).2.active_model = st.active_model := by
  unfold train_supervised_model
  rw [if_pos h]
  exact ⟨rfl, rfl, rfl⟩

/-- Witness for C7: zero labeled rows, default minimum of 20. -/
theorem claim_C7_witness :
    (train_supervised_model (fun _ => .error "unused") ⟨[], [], none⟩ 20).1
        = .error "Muestras etiquetadas insuficientes: 0 (minimo requerido: 20)"
      ∧ (train_supervised_model (fun _ => .error "unused") ⟨[], [], none⟩ 20).2.ml_models
        = [] := by
  have h := claim_C7 (fun _ => .error "unused") ⟨[], [], none⟩ 20 (by decide)
  refine ⟨h.1.trans ?_, h.2.1⟩
  have : ("Muestras etiquetadas insuficientes: " ++ toString (List.length ([] : List (FeatureVector × ℤ)))
      ++ " (minimo requerido: " ++ toString (20 : ℕ) ++ ")")
      = "Muestras etiquetadas insuficientes: 0 (minimo requerido: 20)" := by decide
  rw [this]

/-- A row whose (normalized) type is `regex` and whose value fails to compile
contributes nothing to `_match_iocs`, and matching continues with the
remaining rows exactly as if the row were absent. -/
theorem matchIocsLoop_skips_bad (compile : String → Option (String → Bool))
    (corpus apk_sha256 : String) (row : IocRow)
    (hbad : compile (pyLower (pyStrip row.value)) = none)
    (hne : pyLower (pyStrip row.value) ≠ "")
    (htype : pyLower (pyStrip row.ioc_type) = "regex") (pre post : List IocRow) :
    match_iocs.matchIocsLoop compile corpus apk_sha256 (pre ++ row :: post)
      = match_iocs.matchIocsLoop compile corpus apk_sha256 (pre ++ post) := by
  induction pre with
  | nil =>
    simp only [List.nil_append, match_iocs.matchIocsLoop, htype, hbad, hne]
    simp
  | cons x xs ih =>
    simp only [List.cons_append, match_iocs.matchIocsLoop]
    split_ifs <;> simp [ih]

/-- The IOC upsert processes every row with a non-empty normalized value —
no validity check on regex values — and returns that count. -/
theorem upsert_iocs_count (rows : List RawIoc) : ∀ store : List IocRow,
    (upsert_iocs store rows).1
      = (rows.filter fun r => pyLower (pyStrip r.value) ≠ "").length := by
  induction rows with
  | nil => intro store; rfl
  | cons r rest ih =>
    intro store
    by_cases h : pyLower (pyStrip r.value) = ""
    · simp [upsert_iocs, h, ih, List.filter_cons]
    · simp [upsert_iocs, h, ih, List.filter_cons]

/-- C8 (amended): an IOC of type regex whose value is not a valid regular
expression is skipped silently during matching — matching never raises, the
value never appears among the returned matches, and the remaining rows are
processed as if the row were absent.  During ingestion, however, the row is
NOT skipped: `upsert_iocs` performs no regex validation, stores the row and
counts it like any other non-empty row, and continues with the remaining
rows (`claim_C8_counterexample` falsifies the claim's ingestion-skip part). -/
theorem claim_C8 (compile : String → Option (String → Bool)) (snapshot : Snapshot)
    (row : IocRow)
    (hbad : compile (pyLower (pyStrip row.value)) = none)
    (hne : pyLower (pyStrip row.value) ≠ "")
    (htype : pyLower (pyStrip row.ioc_type) = "regex") :
    (∀ pre post : List IocRow,
      match_iocs compile snapshot (pre ++ row :: post)
        = match_iocs compile snapshot (pre ++ post))
    ∧ match_iocs compile snapshot [row] = []
    ∧ (∀ (store : List IocRow) (rows : List RawIoc),
        (upsert_iocs store rows).1
          = (rows.filter fun r => pyLower (pyStrip r.value) ≠ "").length) := by
  refine ⟨fun pre post => ?_, ?_, fun store rows => upsert_iocs_count rows store⟩
  · unfold match_iocs
    exact matchIocsLoop_skips_bad compile _ _ row hbad hne htype pre post
  · have h := matchIocsLoop_skips_bad compile
      (pyLower (snapshot.dumpsys_package ++ "\n" ++ snapshot.pm_path ++ "\n"
        ++ snapshot.pm_installer))
      (pyLower (pyStrip snapshot.apk_sha256)) row hbad hne htype [] []
    unfold match_iocs
    simpa using h

/-- Witness for C8: the invalid pattern `(`, a trivial always-failing
compiler, one keyword row and the malformed regex row. -/
theorem claim_C8_witness :
    match_iocs (fun _ => none)
        { dumpsys_package := "d", pm_path := "p", pm_installer := "i" }
        [⟨"regex", "(", 8, 1/2, "seed", 1⟩] = []
    ∧ (upsert_iocs []
        [{ ioc_type := "keyword", value := "v" }, { ioc_type := "regex", value := "(" }]).1
      = 2 := by
  have h := claim_C8 (fun _ => none)
    { dumpsys_package := "d", pm_path := "p", pm_installer := "i" }
    (⟨"regex", "(", 8, 1/2, "seed", 1⟩ : IocRow) rfl (by decide) (by decide)
  refine ⟨h.2.1, ?_⟩
  rw [h.2.2]
  decide

/-- Counterexample to C8 as stated: `(` is not a valid regular expression
(Python's `re.compile("(")` raises `re.error`), yet `upsert_iocs` does not
skip it during ingestion: the row is counted and stored in the catalogue. -/
theorem claim_C8_counterexample :
    (upsert_iocs [] [⟨"regex", "(", 8, 1, "seed", true⟩]).1 = 1
    ∧ (upsert_iocs [] [⟨"regex", "(", 8, 1, "seed", true⟩]).2
      = [⟨"regex", "(", 8, 1, "seed", 1⟩] := by
  constructor
  · decide
  · decide

/-- The cluster list of the summary as membership: exactly the clusters of
groups meeting the minimum size. -/
theorem mem_clusters_iff (parse_ts : String → Option ℚ) (fmt_ts : ℚ → String)
    (sha1hex : String → String) (now_iso : String) (records : List ScanRecord)
    (m : ℕ) (c : CampaignCluster) :
    c ∈ (summarize_campaigns parse_ts fmt_ts sha1hex now_iso records m).clusters
      ↔ ∃ g ∈ buildGroups records,
          max 1 m ≤ g.2.length ∧ mkCluster parse_ts fmt_ts sha1hex g.1 g.2 = c := by
  have hperm := List.perm_insertionSort clusterBefore
    (((buildGroups records).filter fun g => ¬ g.2.length < max 1 m).map
      fun g => mkCluster parse_ts fmt_ts sha1hex g.1 g.2)
  constructor
  · intro hc
    have hc' := hperm.mem_iff.mp hc
    obtain ⟨g, hg, hmk⟩ := List.mem_map.mp hc'
    obtain ⟨hgm, hgp⟩ := List.mem_filter.mp hg
    refine ⟨g, hgm, ?_, hmk⟩
    have := of_decide_eq_true hgp
    omega
  · rintro ⟨g, hgm, hglen, hmk⟩
    apply hperm.mem_iff.mpr
    apply List.mem_map.mpr
    refine ⟨g, List.mem_filter.mpr ⟨hgm, decide_eq_true ?_⟩, hmk⟩
    omega

/-- The `(cluster_key, items)` groups of the C6 scenario: two records sharing
artifact hash `s` on different devices plus one differently-keyed record. -/
theorem buildGroups_scenario (r1 r2 r3 : ScanRecord) (s : String)
    (h1 : pyLower (pyStrip r1.raw_snapshot.apk_sha256) = s)
    (h2 : pyLower (pyStrip r2.raw_snapshot.apk_sha256) = s)
    (hs : s ≠ "")
    (h3 : recordKey r3 ≠ "sha256:" ++ s) :
    buildGroups [r1, r2, r3]
      = [("sha256:" ++ s, [r1, r2]), (recordKey r3, [r3])] := by
  have hk1 : recordKey r1 = "sha256:" ++ s := by
    simp only [recordKey, h1]
    rw [if_pos hs]
  have hk2 : recordKey r2 = "sha256:" ++ s := by
    simp only [recordKey, h2]
    rw [if_pos hs]
  have h3' : "sha256:" ++ s ≠ recordKey r3 := Ne.symm h3
  simp [buildGroups, groupInsert, hk1, hk2, h3']

theorem dedup_pair_ne {a b : String} (h : a ≠ b) : ([a, b] : List String).dedup = [a, b] := by
  rw [List.dedup_cons_of_not_mem, List.dedup_cons_of_not_mem, List.dedup_nil]
  · simp
  · simp [List.dedup_cons_of_not_mem, h]

theorem sortStrings_length (l : List String) : (sortStrings l).length = l.length :=
  (List.perm_insertionSort _ l).length_eq

/-- C6: `summarize_campaigns` groups each record by artifact hash when
non-empty, else component fingerprint when non-empty, else lowercase package
name; groups below `max(1, min_cluster_size)` are dropped and exactly the
remaining groups become clusters; and for two scans sharing an artifact hash
on different devices plus one differently-keyed scan, with minimum 2 the
output is exactly one cluster, keyed by the shared hash, with scan_count 2 and
device_count 2, and the below-minimum scan's group key appears in no cluster. -/
theorem claim_C6 (parse_ts : String → Option ℚ) (fmt_ts : ℚ → String)
    (sha1hex : String → String) (now_iso : String) (records : List ScanRecord)
    (m : ℕ) (r1 r2 r3 : ScanRecord) (s : String)
    (h1 : pyLower (pyStrip r1.raw_snapshot.apk_sha256) = s)
    (h2 : pyLower (pyStrip r2.raw_snapshot.apk_sha256) = s)
    (hs : s ≠ "")
    (hdev : r1.device_id ≠ r2.device_id)
    (h3 : recordKey r3 ≠ "sha256:" ++ s) :
    (∀ r : ScanRecord,
        recordKey r
          = (if pyLower (pyStrip r.raw_snapshot.apk_sha256) ≠ "" then
               "sha256:" ++ pyLower (pyStrip r.raw_snapshot.apk_sha256)
             else if pyLower (pyStrip r.raw_snapshot.component_fingerprint) ≠ "" then
               "fingerprint:" ++ pyLower (pyStrip r.raw_snapshot.component_fingerprint)
             else "package:" ++ pyLower r.package_name))
    ∧ (∀ c ∈ (summarize_campaigns parse_ts fmt_ts sha1hex now_iso records m).clusters,
        ∃ g ∈ buildGroups records, c.cluster_key = g.1 ∧ max 1 m ≤ g.2.length)
    ∧ (∀ g ∈ buildGroups records, max 1 m ≤ g.2.length →
        ∃ c ∈ (summarize_campaigns parse_ts fmt_ts sha1hex now_iso records m).clusters,
          c.cluster_key = g.1)
    ∧ (∃ c, (summarize_campaigns parse_ts fmt_ts sha1hex now_iso [r1, r2, r3] 2).clusters
          = [c]
        ∧ c.cluster_key = "sha256:" ++ s
        ∧ c.scan_count = 2
        ∧ c.device_count = 2
        ∧ c.cluster_key ≠ recordKey r3) := by
  refine ⟨fun r => rfl, ?_, ?_, ?_⟩
  · intro c hc
    obtain ⟨g, hgm, hglen, hmk⟩ := (mem_clusters_iff _ _ _ _ _ _ c).mp hc
    exact ⟨g, hgm, by rw [← hmk]; rfl, hglen⟩
  · intro g hgm hglen
    exact ⟨mkCluster parse_ts fmt_ts sha1hex g.1 g.2,
      (mem_clusters_iff _ _ _ _ _ _ _).mpr ⟨g, hgm, hglen, rfl⟩, rfl⟩
  · have hg := buildGroups_scenario r1 r2 r3 s h1 h2 hs h3
    refine ⟨mkCluster parse_ts fmt_ts sha1hex ("sha256:" ++ s) [r1, r2], ?_, rfl, rfl, ?_,
      Ne.symm h3⟩
    · show List.insertionSort clusterBefore
        (((buildGroups [r1, r2, r3]).filter fun g => ¬ g.2.length < max 1 2).map
          fun g => mkCluster parse_ts fmt_ts sha1hex g.1 g.2) = _
      rw [hg]
      norm_num [List.filter, List.insertionSort, List.orderedInsert]
    · show (sortStrings (([r1, r2].map fun item => item.device_id).dedup)).length = 2
      rw [List.map_cons, List.map_cons, List.map_nil, dedup_pair_ne hdev,
        sortStrings_length]
      rfl

/-- Witness for C6: records 1 and 2 share artifact hash "HASH" on devices
devA/devB; record 3 groups by package name and is below the minimum. -/
theorem claim_C6_witness :
    ∃ c, (summarize_campaigns (fun _ => none) (fun _ => "") (fun t => t) ""
        [⟨1, "", "devA", "pkg", 10, none, [], [], ⟨"HASH", ""⟩⟩,
         ⟨2, "", "devB", "pkg", 20, none, [], [], ⟨"HASH", ""⟩⟩,
         ⟨3, "", "devA", "other", 5, none, [], [], ⟨"", ""⟩⟩] 2).clusters = [c]
      ∧ c.cluster_key = "sha256:" ++ "hash"
      ∧ c.scan_count = 2
      ∧ c.device_count = 2 := by
  have h := claim_C6 (fun _ => none) (fun _ => "") (fun t => t) "" [] 2
    ⟨1, "", "devA", "pkg", 10, none, [], [], ⟨"HASH", ""⟩⟩
    ⟨2, "", "devB", "pkg", 20, none, [], [], ⟨"HASH", ""⟩⟩
    ⟨3, "", "devA", "other", 5, none, [], [], ⟨"", ""⟩⟩
    "hash" (by decide) (by decide) (by decide) (by decide) (by decide)
  obtain ⟨c, hc1, hc2, hc3, hc4, -⟩ := h.2.2.2
  exact ⟨c, hc1, hc2, hc3, hc4⟩
